import Mathlib

/-!
# SFML transforms: `TransformBase`, `Transform` (2D) and `Transform3D`

A shallow embedding of `TransformBase.cpp`, `Transform.cpp`, `Transform3D.cpp` and of the
vector functions of `VecOps.inl`.

* `float`: the definitions that embed the code are written once, over any type `K` that has
  the operations and literals the C++ expressions use. Over a field `K` the arithmetic is exact
  (and can be evaluated on `ℚ`); over the type `F32` it is IEEE 754 binary32 arithmetic with one
  rounding per operation. Every definition is computable.
* `m_matrix[16]` is the record `TransformBase K` with one field per array index
  (`m0` is `m_matrix[0]`, ..., `m15` is `m_matrix[15]`).
* `Transform` and `Transform3D` derive from `TransformBase` without adding data members, and each
  has a public copy constructor from `const TransformBase&`; all three classes are therefore the
  same record here and the member functions live in the namespaces `sf.TransformBase`,
  `sf.Transform` and `sf.Transform3D`.
* A mutating member function `T& f(args)` that ends in `return *this` is the pure function
  from the old value of `*this` and the arguments to the new value.
* `std::cos`, `std::sin` and `std::tan` are not part of the repository and are parameters
  (`CMath`); so is `normalize`, which `lookAt` calls and no source file defines.
* `transformRect` compares values, so it is stated over a linearly ordered field `F`.
-/

namespace sf

/-- The `<cmath>` functions called by the transform builders. -/
structure CMath (K : Type) where
  cos : K → K
  sin : K → K
  tan : K → K

/-- The class `sf::Vector2<T>`: two components. -/
@[ext] structure Vector2 (T : Type) where
  x : T
  y : T
  deriving DecidableEq, Repr

/-- The class `sf::Vector3<T>`: three components. -/
@[ext] structure Vector3 (T : Type) where
  x : T
  y : T
  z : T
  deriving DecidableEq, Repr

/-- Modelled from the spec: the unary `operator-` of `sf::Vector3<T>` (`Vector3.inl` is not among
the sources); the spec lists the vectors as numeric tuples with component arithmetic, so the
negation is componentwise. -/
instance {T : Type} [Neg T] : Neg (Vector3 T) where
  neg v := ⟨-v.x, -v.y, -v.z⟩

/-- Modelled from the spec: the binary `operator-` of `sf::Vector3<T>` (`Vector3.inl` is not
among the sources); the spec lists subtraction among the operations the vector types supply,
componentwise. -/
instance {T : Type} [Sub T] : Sub (Vector3 T) where
  sub a b := ⟨a.x - b.x, a.y - b.y, a.z - b.z⟩

/-- Modelled from the spec: the binary `operator+` of `sf::Vector3<T>` (`Vector3.inl` is not
among the sources), componentwise like the other arithmetic of the vector types. -/
instance {T : Type} [Add T] : Add (Vector3 T) where
  add a b := ⟨a.x + b.x, a.y + b.y, a.z + b.z⟩

/-- The class `sf::Vector4<T>` (`Vector4.hpp` is not among the sources): the four components
`x`, `y`, `z`, `w` that `VecOps.inl` reads and passes to its constructor, in this order. -/
@[ext] structure Vector4 (T : Type) where
  x : T
  y : T
  z : T
  w : T
  deriving DecidableEq, Repr

/-- The function `dot(const Vector2<T>&, const Vector2<T>&)` of `VecOps.inl`. -/
def Vector2.dot {T : Type} [CommRing T] (left right : Vector2 T) : T :=
  left.x * right.x + left.y * right.y

/-- The function `dot(const Vector3<T>&, const Vector3<T>&)` of `VecOps.inl`. -/
def Vector3.dot {T : Type} [CommRing T] (left right : Vector3 T) : T :=
  left.x * right.x + left.y * right.y + left.z * right.z

/-- The function `dot(const Vector4<T>&, const Vector4<T>&)` of `VecOps.inl`. -/
def Vector4.dot {T : Type} [CommRing T] (left right : Vector4 T) : T :=
  left.x * right.x + left.y * right.y + left.z * right.z + left.w * right.w

/-- The function `qmul(const Vector4<T>&, const Vector4<T>&)` of `VecOps.inl`. -/
def qmul {T : Type} [CommRing T] (left right : Vector4 T) : Vector4 T :=
  ⟨left.w * right.x + left.x * right.w + left.y * right.z - left.z * right.y,
   left.w * right.y + left.y * right.w + left.z * right.x - left.x * right.z,
   left.w * right.z + left.z * right.w + left.x * right.y - left.y * right.x,
   left.w * right.w - left.x * right.x - left.y * right.y - left.z * right.z⟩

/-- The function `conj(const Vector2<T>&)` of `VecOps.inl`. -/
def Vector2.conj {T : Type} [CommRing T] (left : Vector2 T) : Vector2 T :=
  ⟨left.x, -left.y⟩

/-- The function `conj(const Vector4<T>&)` of `VecOps.inl`, declared to return `Vector4<T>`.
Its body is `return Vector2<T>(-left.x, -left.y, -left.z, left.w);`: the value is built as a
`Vector2<T>` from four arguments. A `Vector2<T>` has the two components `x` and `y` and no
constructor from four values, so the return statement is ill-formed for every `T`: no call of
this function yields a `Vector4<T>`, which is the result `none`. -/
def Vector4.conj {T : Type} [CommRing T] (_left : Vector4 T) : Option (Vector4 T) :=
  none

/-- The function `det(const Vector2<T>&, const Vector2<T>&)` of `VecOps.inl`. -/
def det {T : Type} [CommRing T] (left right : Vector2 T) : T :=
  left.x * right.y - left.y * right.x

/-- The function `cross(const Vector3<T>&, const Vector3<T>&)` of `VecOps.inl`. -/
def cross {T : Type} [CommRing T] (left right : Vector3 T) : Vector3 T :=
  ⟨left.y * right.z - left.z * right.y,
   left.z * right.x - left.x * right.z,
   left.x * right.y - left.y * right.x⟩

/-- Modelled from the spec: the class `sf::Rect<T>` (`Rect.hpp` is not among the sources), an
axis-aligned rectangle `(left, top, width, height)`; `FloatRect` is `Rect<float>`. -/
@[ext] structure Rect (T : Type) where
  left : T
  top : T
  width : T
  height : T
  deriving DecidableEq, Repr

/-- The four local variables `left`, `top`, `right`, `bottom` of
`TransformBase::transformRect`. -/
@[ext] structure Bounds (T : Type) where
  left : T
  top : T
  right : T
  bottom : T
  deriving DecidableEq, Repr

/-- The member `float m_matrix[16]` of `sf::TransformBase`, one field per index. -/
@[ext] structure TransformBase (K : Type) where
  m0 : K
  m1 : K
  m2 : K
  m3 : K
  m4 : K
  m5 : K
  m6 : K
  m7 : K
  m8 : K
  m9 : K
  m10 : K
  m11 : K
  m12 : K
  m13 : K
  m14 : K
  m15 : K
  deriving DecidableEq, Repr

/-! ## The type `float`

The sources compute in `float`. The definitions of the section `Source` below are written once,
over any type `K` that has the operations and literals the C++ expressions use, and are read in
two ways:

* with `K` a field, every operation is exact;
* with `K` the type `F32` of this section, every operation rounds as IEEE 754 binary32 does
  (round to nearest, ties to even, gradual underflow), one rounding per operation, which is how
  the expressions are evaluated when `float` arithmetic is carried out in single precision.
-/

/-- A value of the type `float` (IEEE 754 binary32). Every finite binary32 number is an integer
multiple of `2^-149`, and `fin n` is the number `n * 2^-149`; positive and negative zero, which
`==` and `!=` do not tell apart, are both `fin 0`. `nonfinite` marks a computation that has
left the finite numbers: an overflow or a division by zero has produced an infinity or a NaN.
Such a computation is not followed further (every operation on `nonfinite` gives `nonfinite`),
so only a result of the form `fin n` says what the code computes. -/
inductive F32 where
  | fin (n : Int)
  | nonfinite
  deriving DecidableEq, Repr

namespace F32

/-- The number of binary digits of `a`, one halving per digit; `fuel` bounds the number of
digits. -/
def bitsAux : Nat → Nat → Nat
  | 0, _ => 0
  | fuel + 1, a => if a = 0 then 0 else bitsAux fuel (a / 2) + 1

/-- The number of binary digits of a number `a < 2^(2^k)`, by halving the range of digits:
when `a` has a digit above the lowest `2^(k-1)`, these lowest digits are dropped and
counted. -/
def bitsFrom : Nat → Nat → Nat
  | 0, a => if a = 0 then 0 else 1
  | k + 1, a =>
    if a < 2 ^ 2 ^ k then bitsFrom k a else bitsFrom k (a / 2 ^ 2 ^ k) + 2 ^ k

/-- The number of binary digits of `a` (0 for `a = 0`). -/
def bits (a : Nat) : Nat :=
  if a < 2 ^ 2 ^ 11 then bitsFrom 11 a else bitsAux a a

/-- The integer nearest to `a / 2^d`, the even one of the two when `a / 2^d` lies halfway. -/
def roundShift (a d : Nat) : Nat :=
  let q := a / 2 ^ d
  let r := a % 2 ^ d
  if 2 * r > 2 ^ d ∨ (2 * r = 2 ^ d ∧ q % 2 = 1) then q + 1 else q

/-- The binary32 number nearest to `a * 2^-(149+s)`, as a multiple of `2^-149`: the digits below
`2^-149` and the digits beyond the 24 leading ones are rounded away; no result when the rounded
number is `2^128` or more. -/
def roundNat (a s : Nat) : Option Nat :=
  let d := max s (bits a - 24)
  let r := roundShift a d * 2 ^ (d - s)
  if r < 2 ^ 149 * 2 ^ 128 then some r else none

/-- The binary32 number nearest to `n * 2^-(149+s)` for an integer `n`; `nonfinite` on
overflow. -/
def round (n : Int) (s : Nat) : F32 :=
  match roundNat n.natAbs s with
  | some r => fin (if n < 0 then -(r : Int) else r)
  | none => nonfinite

/-- The binary32 number nearest to the quotient `p / q` of an integer by a positive natural
number: the quotient is taken to three binary digits below `2^-149`, and one more digit records
whether the division left a remainder. -/
def ofRatio (p : Int) (q : Nat) : F32 :=
  let num := p.natAbs * 2 ^ 152
  let quo := num / q
  let sticky : Nat := if num % q = 0 then 0 else 1
  round (Int.sign p * ((2 * quo + sticky : Nat) : Int)) 4

/-- The operator `+` of `float`: the exact sum, rounded. -/
def add : F32 → F32 → F32
  | fin a, fin b => round (a + b) 0
  | _, _ => nonfinite

/-- The binary operator `-` of `float`: the exact difference, rounded. -/
def sub : F32 → F32 → F32
  | fin a, fin b => round (a - b) 0
  | _, _ => nonfinite

/-- The operator `*` of `float`: the exact product of `a * 2^-149` and `b * 2^-149` is
`a * b * 2^-298`, rounded. -/
def mul : F32 → F32 → F32
  | fin a, fin b => round (a * b) 149
  | _, _ => nonfinite

/-- The unary operator `-` of `float`, which is exact. -/
def neg : F32 → F32
  | fin a => fin (-a)
  | nonfinite => nonfinite

/-- The operator `/` of `float`: the exact quotient, rounded; a division by zero gives an
infinity or a NaN. -/
def div : F32 → F32 → F32
  | fin a, fin b => if b = 0 then nonfinite else ofRatio (a * Int.sign b) b.natAbs
  | _, _ => nonfinite

instance : Add F32 := ⟨add⟩

instance : Sub F32 := ⟨sub⟩

instance : Mul F32 := ⟨mul⟩

instance : Div F32 := ⟨div⟩

instance : Neg F32 := ⟨neg⟩

/-- An integer literal converted to `float`. -/
instance (n : Nat) : OfNat F32 n := ⟨ofRatio n 1⟩

/-- A decimal literal with the suffix `f`, such as `3.141592654f`: the binary32 number nearest
to the decimal number written. -/
instance : OfScientific F32 where
  ofScientific m s e := if s then ofRatio m (10 ^ e) else ofRatio (m * 10 ^ e) 1

/-- The exact value of a finite `float`, as a rational number. -/
def toRat : F32 → ℚ
  | fin n => n / 2 ^ 149
  | nonfinite => 0

end F32

/-! ## The member functions

Each C++ expression is written as it stands in the source, over a type `K` of which only the
operations and literals that occur are required. -/

section Source

variable {K : Type} [Add K] [Sub K] [Mul K] [Div K] [Neg K]
  [OfNat K 0] [OfNat K 1] [OfNat K 2] [OfNat K 180] [OfScientific K]

namespace TransformBase

/-- The default constructor `TransformBase::TransformBase()`: the identity matrix. -/
def ctor : TransformBase K where
  m0 := 1
  m4 := 0
  m8 := 0
  m12 := 0
  m1 := 0
  m5 := 1
  m9 := 0
  m13 := 0
  m2 := 0
  m6 := 0
  m10 := 1
  m14 := 0
  m3 := 0
  m7 := 0
  m11 := 0
  m15 := 1

/-- The static member `TransformBase::Identity`, default-constructed. -/
def Identity : TransformBase K := ctor

/-- The constructor `TransformBase::TransformBase(a00, ..., a22)` from a 3x3 matrix. -/
def ctor3 (a00 a01 a02 a10 a11 a12 a20 a21 a22 : K) : TransformBase K where
  m0 := a00
  m4 := a01
  m8 := 0
  m12 := a02
  m1 := a10
  m5 := a11
  m9 := 0
  m13 := a12
  m2 := 0
  m6 := 0
  m10 := 1
  m14 := 0
  m3 := a20
  m7 := a21
  m11 := 0
  m15 := a22

/-- The constructor `TransformBase::TransformBase(a00, ..., a33)` from a 4x4 matrix. -/
def ctor4 (a00 a01 a02 a03 a10 a11 a12 a13 a20 a21 a22 a23 a30 a31 a32 a33 : K) :
    TransformBase K where
  m0 := a00
  m4 := a01
  m8 := a02
  m12 := a03
  m1 := a10
  m5 := a11
  m9 := a12
  m13 := a13
  m2 := a20
  m6 := a21
  m10 := a22
  m14 := a23
  m3 := a30
  m7 := a31
  m11 := a32
  m15 := a33

/-- The accessor `TransformBase::getMatrix()`: the sixteen values by array index. -/
def getMatrix (t : TransformBase K) : Fin 16 → K :=
  ![t.m0, t.m1, t.m2, t.m3, t.m4, t.m5, t.m6, t.m7,
    t.m8, t.m9, t.m10, t.m11, t.m12, t.m13, t.m14, t.m15]

/-- Element (row `r`, column `c`) of the matrix: the value stored at index `c*4+r`. -/
def elem (t : TransformBase K) (r c : Fin 4) : K :=
  t.getMatrix ⟨c.val * 4 + r.val, by omega⟩

/-- The member `Vector2f TransformBase::transformPoint(float x, float y)`. -/
def transformPoint (t : TransformBase K) (x y : K) : Vector2 K :=
  ⟨t.m0 * x + t.m4 * y + t.m12,
   t.m1 * x + t.m5 * y + t.m13⟩

/-- The member `Vector3f TransformBase::transformPoint(float x, float y, float z)`. -/
def transformPoint3 (t : TransformBase K) (x y z : K) : Vector3 K :=
  ⟨t.m0 * x + t.m4 * y + t.m8 * z + t.m12,
   t.m1 * x + t.m5 * y + t.m9 * z + t.m13,
   t.m2 * x + t.m6 * y + t.m10 * z + t.m14⟩

/-- The member `Vector2f TransformBase::transformPoint(const Vector2f& point)`. -/
def transformPointV (t : TransformBase K) (point : Vector2 K) : Vector2 K :=
  t.transformPoint point.x point.y

/-- The member `Vector3f TransformBase::transformPoint(const Vector3f& point)`. -/
def transformPointV3 (t : TransformBase K) (point : Vector3 K) : Vector3 K :=
  t.transformPoint3 point.x point.y point.z

/-- The member `TransformBase::combine(const TransformBase&)`: the new value of `*this`,
with `a` the receiver's matrix and `b` the argument's. -/
def combine (a b : TransformBase K) : TransformBase K :=
  ctor4
    (a.m0 * b.m0 + a.m4 * b.m1 + a.m8 * b.m2 + a.m12 * b.m3)
    (a.m0 * b.m4 + a.m4 * b.m5 + a.m8 * b.m6 + a.m12 * b.m7)
    (a.m0 * b.m8 + a.m4 * b.m9 + a.m8 * b.m10 + a.m12 * b.m11)
    (a.m0 * b.m12 + a.m4 * b.m13 + a.m8 * b.m14 + a.m12 * b.m15)
    (a.m1 * b.m0 + a.m5 * b.m1 + a.m9 * b.m2 + a.m13 * b.m3)
    (a.m1 * b.m4 + a.m5 * b.m5 + a.m9 * b.m6 + a.m13 * b.m7)
    (a.m1 * b.m8 + a.m5 * b.m9 + a.m9 * b.m10 + a.m13 * b.m11)
    (a.m1 * b.m12 + a.m5 * b.m13 + a.m9 * b.m14 + a.m13 * b.m15)
    (a.m2 * b.m0 + a.m6 * b.m1 + a.m10 * b.m2 + a.m14 * b.m3)
    (a.m2 * b.m4 + a.m6 * b.m5 + a.m10 * b.m6 + a.m14 * b.m7)
    (a.m2 * b.m8 + a.m6 * b.m9 + a.m10 * b.m10 + a.m14 * b.m11)
    (a.m2 * b.m12 + a.m6 * b.m13 + a.m10 * b.m14 + a.m14 * b.m15)
    (a.m3 * b.m0 + a.m7 * b.m1 + a.m11 * b.m2 + a.m15 * b.m3)
    (a.m3 * b.m4 + a.m7 * b.m5 + a.m11 * b.m6 + a.m15 * b.m7)
    (a.m3 * b.m8 + a.m7 * b.m9 + a.m11 * b.m10 + a.m15 * b.m11)
    (a.m3 * b.m12 + a.m7 * b.m13 + a.m11 * b.m14 + a.m15 * b.m15)

end TransformBase

namespace Transform

/-- The default constructor `Transform::Transform()`, which calls `TransformBase()`. -/
def ctor : TransformBase K := TransformBase.ctor

/-- The copy constructor `Transform::Transform(const TransformBase&)`: all sixteen values are
copied unchanged. -/
def ofBase (transform : TransformBase K) : TransformBase K := transform

/-- The constructor `Transform::Transform(a00, ..., a22)`, which calls the 3x3 constructor of
`TransformBase`. -/
def ctor3 (a00 a01 a02 a10 a11 a12 a20 a21 a22 : K) : TransformBase K :=
  TransformBase.ctor3 a00 a01 a02 a10 a11 a12 a20 a21 a22

/-- The local variable `det` of `Transform::getInverse`. -/
def getInverseDet (t : TransformBase K) : K :=
  t.m0 * (t.m15 * t.m5 - t.m7 * t.m13) -
  t.m1 * (t.m15 * t.m4 - t.m7 * t.m12) +
  t.m3 * (t.m13 * t.m4 - t.m5 * t.m12)

/-- The member `Transform::getInverse()`. -/
def getInverse [DecidableEq K] (t : TransformBase K) : TransformBase K :=
  let det := getInverseDet t
  if det ≠ 0 then
    ctor3 ((t.m15 * t.m5 - t.m7 * t.m13) / det)
          (-(t.m15 * t.m4 - t.m7 * t.m12) / det)
          ((t.m13 * t.m4 - t.m5 * t.m12) / det)
          (-(t.m15 * t.m1 - t.m3 * t.m13) / det)
          ((t.m15 * t.m0 - t.m3 * t.m12) / det)
          (-(t.m13 * t.m0 - t.m1 * t.m12) / det)
          ((t.m7 * t.m1 - t.m3 * t.m5) / det)
          (-(t.m7 * t.m0 - t.m3 * t.m4) / det)
          ((t.m5 * t.m0 - t.m1 * t.m4) / det)
  else
    ofBase TransformBase.Identity

/-- Division as a guarded operation: no result when the divisor is zero. -/
def checkedDiv [DecidableEq K] (a b : K) : Option K :=
  if b = 0 then none else some (a / b)

/-- The three guarded quotients `a / det`, `b / det`, `c / det` of one row of arguments, left
to right; `none` as soon as one of them has no result. -/
def checkedDiv3 [DecidableEq K] (a b c det : K) : Option (K × K × K) := do
  let x ← checkedDiv a det
  let y ← checkedDiv b det
  let z ← checkedDiv c det
  pure (x, y, z)

/-- The four guarded quotients of one row of arguments, as `checkedDiv3`. -/
def checkedDiv4 [DecidableEq K] (a b c d det : K) : Option (K × K × K × K) := do
  let x ← checkedDiv a det
  let y ← checkedDiv b det
  let z ← checkedDiv c det
  let w ← checkedDiv d det
  pure (x, y, z, w)

/-- The member `Transform::getInverse()` with every `/` read as the guarded `checkedDiv`, the
nine quotients taken row by row in argument order: `none` is the error of a division by
zero. -/
def getInverseChecked [DecidableEq K] (t : TransformBase K) : Option (TransformBase K) :=
  let det := getInverseDet t
  if det ≠ 0 then do
    let (a00, a01, a02) ← checkedDiv3 (t.m15 * t.m5 - t.m7 * t.m13)
      (-(t.m15 * t.m4 - t.m7 * t.m12)) (t.m13 * t.m4 - t.m5 * t.m12) det
    let (a10, a11, a12) ← checkedDiv3 (-(t.m15 * t.m1 - t.m3 * t.m13))
      (t.m15 * t.m0 - t.m3 * t.m12) (-(t.m13 * t.m0 - t.m1 * t.m12)) det
    let (a20, a21, a22) ← checkedDiv3 (t.m7 * t.m1 - t.m3 * t.m5)
      (-(t.m7 * t.m0 - t.m3 * t.m4)) (t.m5 * t.m0 - t.m1 * t.m4) det
    pure (ctor3 a00 a01 a02 a10 a11 a12 a20 a21 a22)
  else
    pure (ofBase TransformBase.Identity)

/-- The member `Transform::combine(const TransformBase&)`: the new value of `*this`,
with `a` the receiver's matrix and `b` the argument's. -/
def combine (a b : TransformBase K) : TransformBase K :=
  ctor3 (a.m0 * b.m0 + a.m4 * b.m1 + a.m12 * b.m3)
        (a.m0 * b.m4 + a.m4 * b.m5 + a.m12 * b.m7)
        (a.m0 * b.m12 + a.m4 * b.m13 + a.m12 * b.m15)
        (a.m1 * b.m0 + a.m5 * b.m1 + a.m13 * b.m3)
        (a.m1 * b.m4 + a.m5 * b.m5 + a.m13 * b.m7)
        (a.m1 * b.m12 + a.m5 * b.m13 + a.m13 * b.m15)
        (a.m3 * b.m0 + a.m7 * b.m1 + a.m15 * b.m3)
        (a.m3 * b.m4 + a.m7 * b.m5 + a.m15 * b.m7)
        (a.m3 * b.m12 + a.m7 * b.m13 + a.m15 * b.m15)

/-- The member `Transform::translate(float x, float y)`. -/
def translate (t : TransformBase K) (x y : K) : TransformBase K :=
  let translation := ctor3 1 0 x
                           0 1 y
                           0 0 1
  combine t translation

/-- The member `Transform::rotate(float angle)`. -/
def rotate (M : CMath K) (t : TransformBase K) (angle : K) : TransformBase K :=
  let rad := angle * 3.141592654 / 180
  let cos := M.cos rad
  let sin := M.sin rad
  let rotation := ctor3 cos (-sin) 0
                        sin cos 0
                        0 0 1
  combine t rotation

/-- The member `Transform::rotate(float angle, float centerX, float centerY)`. -/
def rotateAbout (M : CMath K) (t : TransformBase K) (angle centerX centerY : K) :
    TransformBase K :=
  let rad := angle * 3.141592654 / 180
  let cos := M.cos rad
  let sin := M.sin rad
  let rotation := ctor3 cos (-sin) (centerX * (1 - cos) + centerY * sin)
                        sin cos (centerY * (1 - cos) - centerX * sin)
                        0 0 1
  combine t rotation

/-- The member `Transform::scale(float scaleX, float scaleY)`. -/
def scale (t : TransformBase K) (scaleX scaleY : K) : TransformBase K :=
  let scaling := ctor3 scaleX 0 0
                       0 scaleY 0
                       0 0 1
  combine t scaling

/-- The member `Transform::scale(float scaleX, float scaleY, float centerX, float centerY)`. -/
def scaleAbout (t : TransformBase K) (scaleX scaleY centerX centerY : K) : TransformBase K :=
  let scaling := ctor3 scaleX 0 (centerX * (1 - scaleX))
                       0 scaleY (centerY * (1 - scaleY))
                       0 0 1
  combine t scaling

/-- The member `Transform::translate(const Vector2f& offset)`. -/
def translateV (t : TransformBase K) (offset : Vector2 K) : TransformBase K :=
  translate t offset.x offset.y

/-- The member `Transform::rotate(float angle, const Vector2f& center)`. -/
def rotateAboutV (M : CMath K) (t : TransformBase K) (angle : K) (center : Vector2 K) :
    TransformBase K :=
  rotateAbout M t angle center.x center.y

/-- The member `Transform::scale(const Vector2f& factors)`. -/
def scaleV (t : TransformBase K) (factors : Vector2 K) : TransformBase K :=
  scale t factors.x factors.y

/-- The member `Transform::scale(const Vector2f& factors, const Vector2f& center)`. -/
def scaleAboutV (t : TransformBase K) (factors center : Vector2 K) : TransformBase K :=
  scaleAbout t factors.x factors.y center.x center.y

end Transform

namespace Transform3D

/-- The default constructor `Transform3D::Transform3D()`, which calls `TransformBase()`. -/
def ctor : TransformBase K := TransformBase.ctor

/-- The copy constructor `Transform3D::Transform3D(const TransformBase&)`. -/
def ofBase (transform : TransformBase K) : TransformBase K := transform

/-- The constructor `Transform3D::Transform3D(a00, ..., a33)`, which calls the 4x4 constructor
of `TransformBase`. -/
def ctor4 (a00 a01 a02 a03 a10 a11 a12 a13 a20 a21 a22 a23 a30 a31 a32 a33 : K) :
    TransformBase K :=
  TransformBase.ctor4 a00 a01 a02 a03 a10 a11 a12 a13 a20 a21 a22 a23 a30 a31 a32 a33

/-- The local array `float b[16]` of `Transform3D::getInverse`, after its sixteen assignments;
field `mi` is `b[i]` and `a` is the receiver's matrix. -/
def getInverseB (a : TransformBase K) : TransformBase K where
  m0 := a.m5 * a.m10 * a.m15 - a.m5 * a.m11 * a.m14 - a.m9 * a.m6 * a.m15 +
        a.m9 * a.m7 * a.m14 + a.m13 * a.m6 * a.m11 - a.m13 * a.m7 * a.m10
  m4 := -a.m4 * a.m10 * a.m15 + a.m4 * a.m11 * a.m14 + a.m8 * a.m6 * a.m15 -
        a.m8 * a.m7 * a.m14 - a.m12 * a.m6 * a.m11 + a.m12 * a.m7 * a.m10
  m8 := a.m4 * a.m9 * a.m15 - a.m4 * a.m11 * a.m13 - a.m8 * a.m5 * a.m15 +
        a.m8 * a.m7 * a.m13 + a.m12 * a.m5 * a.m11 - a.m12 * a.m7 * a.m9
  m12 := -a.m4 * a.m9 * a.m14 + a.m4 * a.m10 * a.m13 + a.m8 * a.m5 * a.m14 -
         a.m8 * a.m6 * a.m13 - a.m12 * a.m5 * a.m10 + a.m12 * a.m6 * a.m9
  m1 := -a.m1 * a.m10 * a.m15 + a.m1 * a.m11 * a.m14 + a.m9 * a.m2 * a.m15 -
        a.m9 * a.m3 * a.m14 - a.m13 * a.m2 * a.m11 + a.m13 * a.m3 * a.m10
  m5 := a.m0 * a.m10 * a.m15 - a.m0 * a.m11 * a.m14 - a.m8 * a.m2 * a.m15 +
        a.m8 * a.m3 * a.m14 + a.m12 * a.m2 * a.m11 - a.m12 * a.m3 * a.m10
  m9 := -a.m0 * a.m9 * a.m15 + a.m0 * a.m11 * a.m13 + a.m8 * a.m1 * a.m15 -
        a.m8 * a.m3 * a.m13 - a.m12 * a.m1 * a.m11 + a.m12 * a.m3 * a.m9
  m13 := a.m0 * a.m9 * a.m14 - a.m0 * a.m10 * a.m13 - a.m8 * a.m1 * a.m14 +
         a.m8 * a.m2 * a.m13 + a.m12 * a.m1 * a.m10 - a.m12 * a.m2 * a.m9
  m2 := a.m1 * a.m6 * a.m15 - a.m1 * a.m7 * a.m14 - a.m5 * a.m2 * a.m15 +
        a.m5 * a.m3 * a.m14 + a.m13 * a.m2 * a.m7 - a.m13 * a.m3 * a.m6
  m6 := -a.m0 * a.m6 * a.m15 + a.m0 * a.m7 * a.m14 + a.m4 * a.m2 * a.m15 -
        a.m4 * a.m3 * a.m14 - a.m12 * a.m2 * a.m7 + a.m12 * a.m3 * a.m6
  m10 := a.m0 * a.m5 * a.m15 - a.m0 * a.m7 * a.m13 - a.m4 * a.m1 * a.m15 +
         a.m4 * a.m3 * a.m13 + a.m12 * a.m1 * a.m7 - a.m12 * a.m3 * a.m5
  m14 := -a.m0 * a.m5 * a.m14 + a.m0 * a.m6 * a.m13 + a.m4 * a.m1 * a.m14 -
         a.m4 * a.m2 * a.m13 - a.m12 * a.m1 * a.m6 + a.m12 * a.m2 * a.m5
  m3 := -a.m1 * a.m6 * a.m11 + a.m1 * a.m7 * a.m10 + a.m5 * a.m2 * a.m11 -
        a.m5 * a.m3 * a.m10 - a.m9 * a.m2 * a.m7 + a.m9 * a.m3 * a.m6
  m7 := a.m0 * a.m6 * a.m11 - a.m0 * a.m7 * a.m10 - a.m4 * a.m2 * a.m11 +
        a.m4 * a.m3 * a.m10 + a.m8 * a.m2 * a.m7 - a.m8 * a.m3 * a.m6
  m11 := -a.m0 * a.m5 * a.m11 + a.m0 * a.m7 * a.m9 + a.m4 * a.m1 * a.m11 -
         a.m4 * a.m3 * a.m9 - a.m8 * a.m1 * a.m7 + a.m8 * a.m3 * a.m5
  m15 := a.m0 * a.m5 * a.m10 - a.m0 * a.m6 * a.m9 - a.m4 * a.m1 * a.m10 +
         a.m4 * a.m2 * a.m9 + a.m8 * a.m1 * a.m6 - a.m8 * a.m2 * a.m5

/-- The local variable `det` of `Transform3D::getInverse`. -/
def getInverseDet (a : TransformBase K) : K :=
  let b := getInverseB a
  a.m0 * b.m0 + a.m1 * b.m4 + a.m2 * b.m8 + a.m3 * b.m12

/-- The member `Transform3D::getInverse()`. -/
def getInverse [DecidableEq K] (a : TransformBase K) : TransformBase K :=
  let b := getInverseB a
  let det := getInverseDet a
  if det ≠ 0 then
    ctor4 (b.m0 / det) (b.m4 / det) (b.m8 / det) (b.m12 / det)
          (b.m1 / det) (b.m5 / det) (b.m9 / det) (b.m13 / det)
          (b.m2 / det) (b.m6 / det) (b.m10 / det) (b.m14 / det)
          (b.m3 / det) (b.m7 / det) (b.m11 / det) (b.m15 / det)
  else
    ofBase TransformBase.Identity

/-- The member `Transform3D::getInverse()` with every `/` read as the guarded
`Transform.checkedDiv`, the sixteen quotients taken row by row in argument order: `none` is the
error of a division by zero. -/
def getInverseChecked [DecidableEq K] (a : TransformBase K) : Option (TransformBase K) :=
  let b := getInverseB a
  let det := getInverseDet a
  if det ≠ 0 then do
    let (a00, a01, a02, a03) ← Transform.checkedDiv4 b.m0 b.m4 b.m8 b.m12 det
    let (a10, a11, a12, a13) ← Transform.checkedDiv4 b.m1 b.m5 b.m9 b.m13 det
    let (a20, a21, a22, a23) ← Transform.checkedDiv4 b.m2 b.m6 b.m10 b.m14 det
    let (a30, a31, a32, a33) ← Transform.checkedDiv4 b.m3 b.m7 b.m11 b.m15 det
    pure (ctor4 a00 a01 a02 a03 a10 a11 a12 a13 a20 a21 a22 a23 a30 a31 a32 a33)
  else
    pure (ofBase TransformBase.Identity)

/-- The member `Transform3D::combine(const TransformBase&)`, which calls
`TransformBase::combine`. -/
def combine (a b : TransformBase K) : TransformBase K :=
  TransformBase.combine a b

/-- The member `Transform3D::orthographic(left, right, bottom, top, znear, zfar)`. -/
def orthographic (t : TransformBase K) (left right bottom top znear zfar : K) :
    TransformBase K :=
  let transform := ctor4
    (2 / (right - left)) 0 0 ((left + right) / (left - right))
    0 (2 / (top - bottom)) 0 ((bottom + top) / (bottom - top))
    0 0 (2 / (znear - zfar)) ((znear + zfar) / (znear - zfar))
    0 0 0 1
  combine t transform

/-- The member `Transform3D::orthographic(left, right, bottom, top)`, with four arguments. -/
def orthographic4 (t : TransformBase K) (left right bottom top : K) : TransformBase K :=
  orthographic t left right bottom top (-1) 1

/-- The member `Transform3D::frustum(left, right, bottom, top, znear, zfar)`. -/
def frustum (t : TransformBase K) (left right bottom top znear zfar : K) : TransformBase K :=
  let transform := ctor4
    ((2 * znear) / (right - left)) 0 ((right + left) / (right - left)) 0
    0 ((2 * znear) / (top - bottom)) ((top + bottom) / (top - bottom)) 0
    0 0 ((znear + zfar) / (znear - zfar)) ((2 * znear * zfar) / (znear - zfar))
    0 0 (-1) 0
  combine t transform

/-- The member `Transform3D::translate(const Vector3f& offset)`. -/
def translate (t : TransformBase K) (offset : Vector3 K) : TransformBase K :=
  let translation := ctor4 1 0 0 offset.x
                           0 1 0 offset.y
                           0 0 1 offset.z
                           0 0 0 1
  combine t translation

/-- The member `Transform3D::rotate(float angle, const Vector3f& axis)`. -/
def rotate (M : CMath K) (t : TransformBase K) (angle : K) (axis : Vector3 K) :
    TransformBase K :=
  let rad := angle * 3.141592654 / 180
  let cos := M.cos rad
  let sin := M.sin rad
  let xx := axis.x * axis.x
  let xy := axis.x * axis.y
  let xz := axis.x * axis.z
  let yy := axis.y * axis.y
  let yz := axis.y * axis.z
  let zz := axis.z * axis.z
  let xs := axis.x * sin
  let ys := axis.y * sin
  let zs := axis.z * sin
  let mc := 1 - cos
  let rotation := ctor4 (xx * mc + cos) (xy * mc - zs) (xz * mc + ys) 0
                        (xy * mc + zs) (yy * mc + cos) (yz * mc - xs) 0
                        (xz * mc - ys) (yz * mc + xs) (zz * mc + cos) 0
                        0 0 0 1
  combine t rotation

/-- The member `Transform3D::rotate(float angle, const Vector3f& axis, const Vector3f&
center)`. -/
def rotateAbout (M : CMath K) (t : TransformBase K) (angle : K) (axis center : Vector3 K) :
    TransformBase K :=
  translate (rotate M (translate t (-center)) angle axis) center

/-- The member `Transform3D::scale(float factor)`. -/
def scale (t : TransformBase K) (factor : K) : TransformBase K :=
  let scaling := ctor4 factor 0 0 0
                       0 factor 0 0
                       0 0 factor 0
                       0 0 0 1
  combine t scaling

/-- The member `Transform3D::scale(float factor, const Vector3f& center)`. -/
def scaleAbout (t : TransformBase K) (factor : K) (center : Vector3 K) : TransformBase K :=
  translate (scale (translate t (-center)) factor) center

/-- The member `Transform3D::scale(const Vector3f& factors)`. -/
def scaleV (t : TransformBase K) (factors : Vector3 K) : TransformBase K :=
  let scaling := ctor4 factors.x 0 0 0
                       0 factors.y 0 0
                       0 0 factors.z 0
                       0 0 0 1
  combine t scaling

/-- The member `Transform3D::scale(const Vector3f& factors, const Vector3f& center)`. -/
def scaleVAbout (t : TransformBase K) (factors center : Vector3 K) : TransformBase K :=
  translate (scaleV (translate t (-center)) factors) center

end Transform3D

end Source

/-! From here on `K` is a field. `perspective` evaluates `fov * (3.14159265358979 / 360.0)` and
the tangent in `double`, which `F32` does not model, and `lookAt` calls the vector functions of
`VecOps.inl`, which are embedded over commutative rings. -/

variable {K : Type} [Field K]

namespace Transform3D

/-- The member `Transform3D::perspective(fov, aspect, znear, zfar)`; the literal
`3.14159265358979` is the rational it denotes. -/
def perspective (M : CMath K) (t : TransformBase K) (fov aspect znear zfar : K) :
    TransformBase K :=
  let fh := M.tan (fov * (314159265358979 / 100000000000000 / 360)) * znear
  let fw := fh * aspect
  frustum t (-fw) fw (-fh) fh znear zfar

/-- The member `Transform3D::lookAt(eye, target, up)`. The function `normalize` is called but
defined nowhere in the sources, so it is a parameter. -/
def lookAt (normalize : Vector3 K → Vector3 K) (t : TransformBase K)
    (eye target up : Vector3 K) : TransformBase K :=
  let f := normalize (eye - target)
  let r := normalize (cross up f)
  let u := normalize (cross f r)
  let transform := ctor4 r.x u.x f.x 0
                         r.y u.y f.y 0
                         r.z u.z f.z 0
                         0 0 0 1
  combine t transform

/-- The member `Transform3D::lookAt(eye, target)` with the default argument
`up = sf::Vector3f(0.0f, 1.0f, 0.0f)`. -/
def lookAtDefaultUp (normalize : Vector3 K → Vector3 K) (t : TransformBase K)
    (eye target : Vector3 K) : TransformBase K :=
  lookAt normalize t eye target ⟨0, 1, 0⟩

end Transform3D

section Ordered

variable {F : Type} [LinearOrderedField F]

/-- One iteration of the loop of `TransformBase::transformRect` for the point `p = points[i]`:
the two `if / else if` statements, each an update of the local variables. -/
def TransformBase.transformRectStep (s : Bounds F) (p : Vector2 F) : Bounds F :=
  let s1 : Bounds F :=
    if p.x < s.left then { s with left := p.x }
    else if p.x > s.right then { s with right := p.x }
    else s
  let s2 : Bounds F :=
    if p.y < s1.top then { s1 with top := p.y }
    else if p.y > s1.bottom then { s1 with bottom := p.y }
    else s1
  s2

/-- The member `FloatRect TransformBase::transformRect(const FloatRect& rectangle)`; the loop
`for (int i = 1; i < 4; ++i)` is the fold over `points[1]`, `points[2]`, `points[3]`. -/
def TransformBase.transformRect (t : TransformBase F) (rectangle : Rect F) : Rect F :=
  let points : List (Vector2 F) :=
    [t.transformPoint rectangle.left rectangle.top,
     t.transformPoint rectangle.left (rectangle.top + rectangle.height),
     t.transformPoint (rectangle.left + rectangle.width) rectangle.top,
     t.transformPoint (rectangle.left + rectangle.width) (rectangle.top + rectangle.height)]
  let p0 := t.transformPoint rectangle.left rectangle.top
  let init : Bounds F := ⟨p0.x, p0.y, p0.x, p0.y⟩
  let s := (points.drop 1).foldl TransformBase.transformRectStep init
  ⟨s.left, s.top, s.right - s.left, s.bottom - s.top⟩

/-- The four corners of `rectangle` mapped through `transformPoint`, in the order of the array
`points` of `transformRect`. -/
def TransformBase.corners (t : TransformBase F) (r : Rect F) : Fin 4 → Vector2 F :=
  ![t.transformPoint r.left r.top,
    t.transformPoint r.left (r.top + r.height),
    t.transformPoint (r.left + r.width) r.top,
    t.transformPoint (r.left + r.width) (r.top + r.height)]

end Ordered

/-! ## Specification vocabulary -/

namespace TransformBase

/-- The 4x4 matrix a transform stores: entry (r,c) is the value at index `c*4+r`. -/
def toMatrix (t : TransformBase K) : Matrix (Fin 4) (Fin 4) K :=
  Matrix.of fun r c => t.elem r c

/-- The 3x3 affine submatrix read by the 2D operations: rows and columns x, y, w. -/
def affine3 (t : TransformBase K) : Matrix (Fin 3) (Fin 3) K :=
  !![t.m0, t.m4, t.m12;
     t.m1, t.m5, t.m13;
     t.m3, t.m7, t.m15]

/-- The 2D invariant: indices 2, 6, 8, 9, 11, 14 hold 0 and index 10 holds 1. -/
def Is2D {A : Type} [OfNat A 0] [OfNat A 1] (t : TransformBase A) : Prop :=
  t.m2 = 0 ∧ t.m6 = 0 ∧ t.m8 = 0 ∧ t.m9 = 0 ∧ t.m11 = 0 ∧ t.m14 = 0 ∧ t.m10 = 1

instance {A : Type} [OfNat A 0] [OfNat A 1] [DecidableEq A] (t : TransformBase A) :
    Decidable (Is2D t) := by
  unfold Is2D
  infer_instance

/-- A transform is affine when its bottom row (indices 3, 7, 11, 15) is `[0, 0, 0, 1]`. -/
def IsAffine {A : Type} [OfNat A 0] [OfNat A 1] (t : TransformBase A) : Prop :=
  t.m3 = 0 ∧ t.m7 = 0 ∧ t.m11 = 0 ∧ t.m15 = 1

instance {A : Type} [OfNat A 0] [OfNat A 1] [DecidableEq A] (t : TransformBase A) :
    Decidable (IsAffine t) := by
  unfold IsAffine
  infer_instance

/-- The sixteen values of `t`, each mapped by `f`. -/
def map {A B : Type} (f : A → B) (t : TransformBase A) : TransformBase B where
  m0 := f t.m0
  m1 := f t.m1
  m2 := f t.m2
  m3 := f t.m3
  m4 := f t.m4
  m5 := f t.m5
  m6 := f t.m6
  m7 := f t.m7
  m8 := f t.m8
  m9 := f t.m9
  m10 := f t.m10
  m11 := f t.m11
  m12 := f t.m12
  m13 := f t.m13
  m14 := f t.m14
  m15 := f t.m15

/-- The exact values of the sixteen `float` entries of a transform, as rational numbers. -/
def exact (t : TransformBase F32) : TransformBase ℚ :=
  t.map F32.toRat

/-- Every entry of `b` divided by `d`, as in the sixteen quotients `b[i] / det`. -/
def divEntries (b : TransformBase K) (d : K) : TransformBase K where
  m0 := b.m0 / d
  m1 := b.m1 / d
  m2 := b.m2 / d
  m3 := b.m3 / d
  m4 := b.m4 / d
  m5 := b.m5 / d
  m6 := b.m6 / d
  m7 := b.m7 / d
  m8 := b.m8 / d
  m9 := b.m9 / d
  m10 := b.m10 / d
  m11 := b.m11 / d
  m12 := b.m12 / d
  m13 := b.m13 / d
  m14 := b.m14 / d
  m15 := b.m15 / d

/-- The scalar matrix with `d` on the diagonal (indices 0, 5, 10, 15). -/
def scalar (d : K) : TransformBase K where
  m0 := d
  m1 := 0
  m2 := 0
  m3 := 0
  m4 := 0
  m5 := d
  m6 := 0
  m7 := 0
  m8 := 0
  m9 := 0
  m10 := d
  m11 := 0
  m12 := 0
  m13 := 0
  m14 := 0
  m15 := d

end TransformBase

/-- A `<cmath>` whose cosine is 0 and whose sine is 1 at every argument, as the exact cosine
and sine of a quarter turn (90 degrees) are. -/
def quarterTurn : CMath ℚ where
  cos := fun _ => 0
  sin := fun _ => 1
  tan := fun _ => 0

/-- A `<cmath>` whose tangent is 1 at every argument, as the exact tangent of 45 degrees
is. -/
def unitTan : CMath ℚ where
  cos := fun _ => 0
  sin := fun _ => 0
  tan := fun _ => 1

/-- The `Transform3D` with `2^-40` at the four diagonal places and zero elsewhere, in
`float`. -/
def tinyDiagonal3D : TransformBase F32 :=
  Transform3D.ctor4 (F32.ofRatio 1 (2 ^ 40)) 0 0 0
                    0 (F32.ofRatio 1 (2 ^ 40)) 0 0
                    0 0 (F32.ofRatio 1 (2 ^ 40)) 0
                    0 0 0 (F32.ofRatio 1 (2 ^ 40))

/-- The 2D `Transform` that scales both coordinates by `2^-80`, in `float`. -/
def tinyScale2D : TransformBase F32 :=
  Transform.ctor3 (F32.ofRatio 1 (2 ^ 80)) 0 0
                  0 (F32.ofRatio 1 (2 ^ 80)) 0
                  0 0 1

/-- A `Transform3D` with integer entries whose 4x4 determinant is zero, in `float`. -/
def singular3D : TransformBase F32 :=
  Transform3D.ctor4 (-46) (-37) (-43) (-48)
                    (-55) 10 32 (-55)
                    (-51) (-45) 22 (-52)
                    (-50) 18 (-33) (-51)

/-- A 2D `Transform` with integer entries whose 3x3 determinant is zero, in `float`. -/
def singular2D : TransformBase F32 :=
  Transform.ctor3 22 53 (-262)
                  (-265) (-255) 39
                  (-243) (-202) (-223)

/-- A 2D `Transform` with integer entries and the 3x3 determinant 13499907, in `float`. -/
def integer2D : TransformBase F32 :=
  Transform.ctor3 (-25) (-214) 139
                  85 (-147) 214
                  (-204) 215 212

/-- A `<cmath>` in `float` whose values are everywhere the `float` numbers nearest to the
cosine, the sine and the tangent of 1.0471976, which is 60 degrees in radians as `float`. -/
def sixtyDegrees : CMath F32 where
  cos := fun _ => 0.49999997
  sin := fun _ => 0.86602545
  tan := fun _ => 1.7320509

/-- A `<cmath>` in `float` whose values are everywhere the `float` numbers nearest to the
cosine, the sine and the tangent of 1.5707964, which is 90 degrees in radians as `float`. -/
def ninetyDegrees : CMath F32 where
  cos := fun _ => -4.371139e-8
  sin := fun _ => 1
  tan := fun _ => -22877332

/-- The quaternion a 4-component vector stands for, with `w` the scalar part and `x`, `y`, `z`
the vector part. -/
def Vector4.toQuaternion {T : Type} [CommRing T] (q : Vector4 T) : Quaternion T :=
  ⟨q.w, q.x, q.y, q.z⟩

/-! ## Theorems -/

section Helpers

open TransformBase

omit [Field K] in
theorem toMatrix_eq (t : TransformBase K) :
    t.toMatrix = !![t.m0, t.m4, t.m8, t.m12;
                    t.m1, t.m5, t.m9, t.m13;
                    t.m2, t.m6, t.m10, t.m14;
                    t.m3, t.m7, t.m11, t.m15] := by
  ext r c
  fin_cases r <;> fin_cases c <;> rfl

theorem getInverseDet3D_eq_det (t : TransformBase K) :
    Transform3D.getInverseDet t = t.toMatrix.det := by
  rw [toMatrix_eq, Matrix.det_succ_row_zero]
  have h2 : Fin.castSucc (2 : Fin 3) = (2 : Fin 4) := rfl
  have h3 : Fin.succ (2 : Fin 3) = (3 : Fin 4) := rfl
  simp [Fin.sum_univ_succ, Matrix.det_fin_three, Fin.succAbove, Matrix.submatrix,
    Transform3D.getInverseDet, Transform3D.getInverseB, h2, h3]
  ring

theorem getInverseDet2D_eq_det (t : TransformBase K) :
    Transform.getInverseDet t = t.affine3.det := by
  simp [affine3, Matrix.det_fin_three, Transform.getInverseDet]
  ring

theorem combine_getInverseB (a : TransformBase K) :
    combine a (Transform3D.getInverseB a) = scalar (Transform3D.getInverseDet a) := by
  cases a
  simp only [combine, ctor4, scalar, Transform3D.getInverseB, Transform3D.getInverseDet,
    mk.injEq]
  and_intros <;> ring

theorem getInverseB_combine (a : TransformBase K) :
    combine (Transform3D.getInverseB a) a = scalar (Transform3D.getInverseDet a) := by
  cases a
  simp only [combine, ctor4, scalar, Transform3D.getInverseB, Transform3D.getInverseDet,
    mk.injEq]
  and_intros <;> ring

theorem combine_divEntries (a b : TransformBase K) (d : K) :
    combine a (divEntries b d) = divEntries (combine a b) d := by
  cases a
  cases b
  simp only [combine, ctor4, divEntries, mk.injEq]
  and_intros <;> ring

theorem divEntries_combine (a b : TransformBase K) (d : K) :
    combine (divEntries b d) a = divEntries (combine b a) d := by
  cases a
  cases b
  simp only [combine, ctor4, divEntries, mk.injEq]
  and_intros <;> ring

theorem divEntries_scalar (d : K) (h : d ≠ 0) : divEntries (scalar d) d = Identity := by
  simp only [divEntries, scalar, Identity, ctor, mk.injEq, div_self h, zero_div, and_self]

theorem getInverse3D_of_ne [DecidableEq K] (a : TransformBase K)
    (h : Transform3D.getInverseDet a ≠ 0) :
    Transform3D.getInverse a =
      divEntries (Transform3D.getInverseB a) (Transform3D.getInverseDet a) := by
  simp only [Transform3D.getInverse, if_pos h]
  rfl

theorem getInverse3D_of_eq [DecidableEq K] (a : TransformBase K)
    (h : Transform3D.getInverseDet a = 0) :
    Transform3D.getInverse a = Identity := by
  simp [Transform3D.getInverse, h, Transform3D.ofBase]

theorem getInverse2D_of_eq [DecidableEq K] (t : TransformBase K)
    (h : Transform.getInverseDet t = 0) :
    Transform.getInverse t = Identity := by
  simp [Transform.getInverse, h, Transform.ofBase]

theorem getInverse2D_of_ne [DecidableEq K] (t : TransformBase K)
    (h : Transform.getInverseDet t ≠ 0) :
    Transform.getInverse t =
      Transform.ctor3 ((t.m15 * t.m5 - t.m7 * t.m13) / Transform.getInverseDet t)
          (-(t.m15 * t.m4 - t.m7 * t.m12) / Transform.getInverseDet t)
          ((t.m13 * t.m4 - t.m5 * t.m12) / Transform.getInverseDet t)
          (-(t.m15 * t.m1 - t.m3 * t.m13) / Transform.getInverseDet t)
          ((t.m15 * t.m0 - t.m3 * t.m12) / Transform.getInverseDet t)
          (-(t.m13 * t.m0 - t.m1 * t.m12) / Transform.getInverseDet t)
          ((t.m7 * t.m1 - t.m3 * t.m5) / Transform.getInverseDet t)
          (-(t.m7 * t.m0 - t.m3 * t.m4) / Transform.getInverseDet t)
          ((t.m5 * t.m0 - t.m1 * t.m4) / Transform.getInverseDet t) := by
  simp only [Transform.getInverse, if_pos h]

variable {F : Type} [LinearOrderedField F]

theorem transformRectStep_eq (s : Bounds F) (p : Vector2 F)
    (hx : s.left ≤ s.right) (hy : s.top ≤ s.bottom) :
    transformRectStep s p
      = ⟨min s.left p.x, min s.top p.y, max s.right p.x, max s.bottom p.y⟩ := by
  have h1 : (if p.x < s.left then ({ s with left := p.x } : Bounds F)
      else if p.x > s.right then { s with right := p.x } else s)
      = ⟨min s.left p.x, s.top, max s.right p.x, s.bottom⟩ := by
    split_ifs with h h'
    · rw [min_eq_right h.le, max_eq_left (h.le.trans hx)]
    · rw [min_eq_left (not_lt.mp h), max_eq_right h'.le]
    · rw [min_eq_left (not_lt.mp h), max_eq_left (not_lt.mp h')]
  unfold transformRectStep
  simp only [h1]
  split_ifs with h h'
  · simp only [min_eq_right h.le, max_eq_left (h.le.trans hy)]
  · simp only [min_eq_left (not_lt.mp h), max_eq_right h'.le]
  · rw [min_eq_left (not_lt.mp h), max_eq_left (not_lt.mp h')]

theorem min_le_max_of_le {a b v : F} (h : a ≤ b) : min a v ≤ max b v :=
  (min_le_left _ _).trans (h.trans (le_max_left _ _))

theorem transformRect_eq (t : TransformBase F) (r : Rect F) :
    t.transformRect r =
      ⟨min (min (min (corners t r 0).x (corners t r 1).x) (corners t r 2).x) (corners t r 3).x,
       min (min (min (corners t r 0).y (corners t r 1).y) (corners t r 2).y) (corners t r 3).y,
       max (max (max (corners t r 0).x (corners t r 1).x) (corners t r 2).x) (corners t r 3).x
        - min (min (min (corners t r 0).x (corners t r 1).x) (corners t r 2).x)
            (corners t r 3).x,
       max (max (max (corners t r 0).y (corners t r 1).y) (corners t r 2).y) (corners t r 3).y
        - min (min (min (corners t r 0).y (corners t r 1).y) (corners t r 2).y)
            (corners t r 3).y⟩ := by
  simp only [transformRect, List.drop, List.foldl, corners, Matrix.cons_val_zero,
    Matrix.cons_val_one, Matrix.head_cons]
  rw [transformRectStep_eq ⟨(t.transformPoint r.left r.top).x, _, _, _⟩ _ le_rfl le_rfl,
    transformRectStep_eq ⟨min _ _, _, _, _⟩ _ (min_le_max_of_le le_rfl)
      (min_le_max_of_le le_rfl),
    transformRectStep_eq ⟨min (min _ _) _, _, _, _⟩ _
      (min_le_max_of_le (min_le_max_of_le le_rfl))
      (min_le_max_of_le (min_le_max_of_le le_rfl))]
  rfl

theorem is2D_ctor3 (a00 a01 a02 a10 a11 a12 a20 a21 a22 : K) :
    (Transform.ctor3 a00 a01 a02 a10 a11 a12 a20 a21 a22).Is2D := by
  simp [Transform.ctor3, ctor3, Is2D]

theorem is2D_combine (a b : TransformBase K) : (Transform.combine a b).Is2D :=
  is2D_ctor3 _ _ _ _ _ _ _ _ _

theorem toMatrix_combine (a b : TransformBase K) :
    (combine a b).toMatrix = a.toMatrix * b.toMatrix := by
  ext r c
  rw [Matrix.mul_apply]
  fin_cases r <;> fin_cases c <;> (rw [Fin.sum_univ_four]; rfl)

namespace F32

/-- The number zero has no binary digit. -/
theorem bitsAux_zero (fuel : Nat) : bitsAux fuel 0 = 0 := by
  cases fuel <;> simp [bitsAux]

/-- The function `bitsAux` counts binary digits when the fuel is at least `a`. -/
theorem bitsAux_spec (fuel : Nat) : ∀ a : Nat, a ≤ fuel → a ≠ 0 →
    2 ^ (bitsAux fuel a - 1) ≤ a ∧ a < 2 ^ bitsAux fuel a := by
  induction fuel with
  | zero => intro a h ha; omega
  | succ fuel ih =>
    intro a h ha
    simp only [bitsAux, if_neg ha, Nat.add_sub_cancel]
    by_cases h2 : a / 2 = 0
    · rw [h2, bitsAux_zero]
      have : a = 1 := by omega
      subst this
      norm_num
    · have hle : a / 2 ≤ fuel := by omega
      obtain ⟨h1, h3⟩ := ih (a / 2) hle h2
      have hb : bitsAux fuel (a / 2) ≠ 0 := by
        intro h0
        rw [h0] at h3
        omega
      obtain ⟨b, hb'⟩ := Nat.exists_eq_succ_of_ne_zero hb
      rw [hb'] at h1 h3 ⊢
      simp only [Nat.succ_sub_one] at h1
      rw [pow_succ] at h3 ⊢
      rw [pow_succ]
      constructor <;> omega

/-- The function `bitsFrom k` counts binary digits below `2^(2^k)`. -/
theorem bitsFrom_spec (k : Nat) : ∀ a : Nat, a < 2 ^ 2 ^ k → a ≠ 0 →
    2 ^ (bitsFrom k a - 1) ≤ a ∧ a < 2 ^ bitsFrom k a := by
  induction k with
  | zero =>
    intro a h ha
    have : a = 1 := by norm_num at h; omega
    subst this
    norm_num [bitsFrom]
  | succ k ih =>
    intro a h ha
    unfold bitsFrom
    split_ifs with hlt
    · exact ih a hlt ha
    · have hp : 0 < 2 ^ 2 ^ k := by positivity
      have hsq : (2 : Nat) ^ 2 ^ (k + 1) = 2 ^ 2 ^ k * 2 ^ 2 ^ k := by
        rw [pow_succ, pow_mul, sq]
      rw [hsq] at h
      have hq0 : a / 2 ^ 2 ^ k ≠ 0 := (Nat.div_pos (not_lt.mp hlt) hp).ne'
      have hq1 : a / 2 ^ 2 ^ k < 2 ^ 2 ^ k := Nat.div_lt_of_lt_mul h
      obtain ⟨h1, h3⟩ := ih _ hq1 hq0
      have hb : bitsFrom k (a / 2 ^ 2 ^ k) ≠ 0 := by
        intro h0
        rw [h0, pow_zero] at h3
        exact hq0 (Nat.lt_one_iff.mp h3)
      obtain ⟨b, hb'⟩ := Nat.exists_eq_succ_of_ne_zero hb
      rw [hb'] at h1 h3 ⊢
      simp only [Nat.succ_sub_one] at h1
      have e1 : b.succ + 2 ^ k - 1 = b + 2 ^ k := by
        rw [Nat.succ_add, Nat.succ_sub_one]
      rw [e1, pow_add, pow_add]
      have hdm := Nat.div_add_mod a (2 ^ 2 ^ k)
      have hm := Nat.mod_lt a hp
      constructor
      · calc 2 ^ b * 2 ^ 2 ^ k ≤ a / 2 ^ 2 ^ k * 2 ^ 2 ^ k := Nat.mul_le_mul_right _ h1
          _ ≤ a := Nat.div_mul_le_self a _
      · calc a = 2 ^ 2 ^ k * (a / 2 ^ 2 ^ k) + a % 2 ^ 2 ^ k := hdm.symm
          _ < 2 ^ 2 ^ k * (a / 2 ^ 2 ^ k) + 2 ^ 2 ^ k := by omega
          _ = (a / 2 ^ 2 ^ k + 1) * 2 ^ 2 ^ k := by ring
          _ ≤ 2 ^ b.succ * 2 ^ 2 ^ k := Nat.mul_le_mul_right _ h3

/-- The function `bits` counts binary digits: a nonzero `a` lies between `2^(bits a - 1)` and
`2^(bits a)`. -/
theorem bits_spec (a : Nat) (ha : a ≠ 0) : 2 ^ (bits a - 1) ≤ a ∧ a < 2 ^ bits a := by
  unfold bits
  split_ifs with h
  · exact bitsFrom_spec 11 a h ha
  · exact bitsAux_spec a a le_rfl ha

/-- The function `roundShift` rounds to nearest: `roundShift a d * 2^d` differs from `a` by at
most half of `2^d`, and when it differs by exactly half, `roundShift a d` is even. -/
theorem roundShift_spec (a d : Nat) :
    2 * (roundShift a d * 2 ^ d) ≤ 2 * a + 2 ^ d ∧
    2 * a ≤ 2 * (roundShift a d * 2 ^ d) + 2 ^ d ∧
    ((2 * (roundShift a d * 2 ^ d) = 2 * a + 2 ^ d ∨
      2 * a = 2 * (roundShift a d * 2 ^ d) + 2 ^ d) → roundShift a d % 2 = 0) := by
  have hp : 0 < 2 ^ d := by positivity
  have hdm := Nat.div_add_mod a (2 ^ d)
  have hm := Nat.mod_lt a hp
  unfold roundShift
  simp only
  generalize 2 ^ d = p at *
  generalize hq : a / p = q at *
  generalize hr : a % p = r at *
  have e : (q + 1) * p = p * q + p := by ring
  have e' : q * p = p * q := by ring
  split_ifs with hc
  · rw [e]
    refine ⟨by omega, by omega, fun h => ?_⟩
    rcases hc with hc | ⟨hc, hodd⟩
    · omega
    · omega
  · rw [e']
    refine ⟨by omega, by omega, fun h => ?_⟩
    simp only [not_or, not_and] at hc
    omega

/-- The function `roundNat` rounds `a * 2^-(149+s)` onto the grid of binary32 numbers at the
size of `a`: with the grid step `2^d`, `d = max s (bits a - 24)`, the result is a multiple
`m * 2^(d-s)` of the step with `m` of at most 24 digits (or `m = 2^24`), below `2^128`, and it
differs from `a * 2^-(149+s)` by at most half a step. -/
theorem roundNat_spec (a s r : Nat) (h : roundNat a s = some r) :
    r = roundShift a (max s (bits a - 24)) * 2 ^ (max s (bits a - 24) - s) ∧
    roundShift a (max s (bits a - 24)) ≤ 2 ^ 24 ∧
    r < 2 ^ 149 * 2 ^ 128 ∧
    2 * (r * 2 ^ s) ≤ 2 * a + 2 ^ max s (bits a - 24) ∧
    2 * a ≤ 2 * (r * 2 ^ s) + 2 ^ max s (bits a - 24) := by
  unfold roundNat at h
  simp only at h
  split_ifs at h with hlt
  have hr : r = roundShift a (max s (bits a - 24)) * 2 ^ (max s (bits a - 24) - s) :=
    (Option.some.inj h).symm
  have hd : s ≤ max s (bits a - 24) := le_max_left _ _
  have hrs : r * 2 ^ s = roundShift a (max s (bits a - 24)) * 2 ^ max s (bits a - 24) := by
    rw [hr, mul_assoc, ← pow_add, Nat.sub_add_cancel hd]
  obtain ⟨h1, h2, -⟩ := roundShift_spec a (max s (bits a - 24))
  refine ⟨hr, ?_, hr ▸ hlt, hrs ▸ h1, hrs ▸ h2⟩
  have hq : a / 2 ^ max s (bits a - 24) < 2 ^ 24 := by
    rw [Nat.div_lt_iff_lt_mul (by positivity), ← pow_add]
    rcases Nat.eq_zero_or_pos a with h0 | h0
    · rw [h0]
      positivity
    · exact lt_of_lt_of_le (bits_spec a h0.ne').2
        (Nat.pow_le_pow_right (by norm_num) (by
          have := le_max_right s (bits a - 24)
          omega))
  unfold roundShift
  simp only
  split_ifs <;> omega

end F32

/-- Rounding of `F32` at known values of binary32 arithmetic: exact small sums, ties to even
at `2^24`, the quotient 1/3, the literal `0.1f`, gradual underflow at `2^-149` and overflow
beyond the largest finite number 3.4028235e38. -/
theorem F32_rounding_examples :
    (1 : F32) + 1 = 2 ∧
    (16777216 : F32) + 1 = 16777216 ∧
    (16777218 : F32) + 1 = 16777220 ∧
    (16777217 : F32) = 16777216 ∧
    (1 : F32) / 3 = 0.33333334 ∧
    (1 : F32) / 3 * 3 = 1 ∧
    (0.1 : F32).toRat = 13421773 / 134217728 ∧
    (0.1 : F32) + 0.2 = 0.3 ∧
    F32.fin 1 = F32.ofRatio 1 (2 ^ 149) ∧
    F32.fin 1 / 2 = 0 ∧
    F32.fin 3 / 2 = F32.fin 2 ∧
    F32.fin 1 * F32.fin 1 = 0 ∧
    (3.4028235e38 : F32) = F32.fin ((2 ^ 24 - 1) * 2 ^ 253) ∧
    (3.4028235e38 : F32) + 3.4028235e38 = F32.nonfinite ∧
    (3.4028235e38 : F32) * 2 = F32.nonfinite ∧
    (1 : F32) / 0 = F32.nonfinite := by
  and_intros <;> decide!

end Helpers

section Claims

open TransformBase

/-- C1: `TransformBase::combine` replaces the receiver `a` by the matrix product `a x b`:
element (r,c) of the result, stored at index `c*4+r`, is the sum over `k` of
`a(r,k) * b(k,c)`. -/
theorem combine_elem_eq_sum (a b : TransformBase K) (r c : Fin 4) :
    (TransformBase.combine a b).elem r c = ∑ k : Fin 4, a.elem r k * b.elem k c := by
  fin_cases r <;> fin_cases c <;> (rw [Fin.sum_univ_four]; rfl)

/-- C2: evaluation of the code where the claim fails. With `a` the translation by (10,0,0) and
`b` the quarter turn about the z axis, both affine, `a.combine(b)` sends the origin to
(10,0,0), which is `a` applied after `b`, whereas `b` applied after `a` gives (0,10,0). -/
theorem combine_transformPoint_self_first_fails :
    (Transform3D.ctor4 (1 : ℚ) 0 0 10 0 1 0 0 0 0 1 0 0 0 0 1).IsAffine ∧
    (Transform3D.ctor4 (0 : ℚ) (-1) 0 0 1 0 0 0 0 0 1 0 0 0 0 1).IsAffine ∧
    (combine (Transform3D.ctor4 (1 : ℚ) 0 0 10 0 1 0 0 0 0 1 0 0 0 0 1)
        (Transform3D.ctor4 0 (-1) 0 0 1 0 0 0 0 0 1 0 0 0 0 1)).transformPointV3 ⟨0, 0, 0⟩
      = ⟨10, 0, 0⟩ ∧
    (Transform3D.ctor4 (0 : ℚ) (-1) 0 0 1 0 0 0 0 0 1 0 0 0 0 1).transformPointV3
        ((Transform3D.ctor4 (1 : ℚ) 0 0 10 0 1 0 0 0 0 1 0 0 0 0 1).transformPointV3 ⟨0, 0, 0⟩)
      = ⟨0, 10, 0⟩ ∧
    (combine (Transform3D.ctor4 (1 : ℚ) 0 0 10 0 1 0 0 0 0 1 0 0 0 0 1)
        (Transform3D.ctor4 0 (-1) 0 0 1 0 0 0 0 0 1 0 0 0 0 1)).transformPointV3 ⟨0, 0, 0⟩
      ≠ (Transform3D.ctor4 (0 : ℚ) (-1) 0 0 1 0 0 0 0 0 1 0 0 0 0 1).transformPointV3
        ((Transform3D.ctor4 (1 : ℚ) 0 0 10 0 1 0 0 0 0 1 0 0 0 0 1).transformPointV3
          ⟨0, 0, 0⟩) := by
  norm_num [IsAffine, Transform3D.ctor4, ctor4, combine, transformPointV3, transformPoint3]

/-- C3, counterexample: in `float` arithmetic take the `Transform3D` with `2^-40` at the four
diagonal places. Its determinant is `2^-160`, not zero, but the determinant the code computes
underflows to zero; `getInverse` returns the identity, and `T.combine(T.getInverse())` is `T`
itself, not the identity. -/
theorem Transform3D_getInverse_two_sided_fails :
    tinyDiagonal3D.exact.toMatrix.det = 1 / 2 ^ 160 ∧
    tinyDiagonal3D.exact.toMatrix.det ≠ 0 ∧
    Transform3D.getInverseDet tinyDiagonal3D = 0 ∧
    Transform3D.getInverse tinyDiagonal3D = Identity ∧
    Transform3D.combine tinyDiagonal3D (Transform3D.getInverse tinyDiagonal3D)
      = tinyDiagonal3D ∧
    Transform3D.combine tinyDiagonal3D (Transform3D.getInverse tinyDiagonal3D) ≠ Identity := by
  have h : Transform3D.getInverseDet tinyDiagonal3D.exact = 1 / 2 ^ 160 := by decide!
  rw [getInverseDet3D_eq_det] at h
  exact ⟨h, by rw [h]; norm_num, by decide!⟩

/-- C3, amended: in exact arithmetic (the sixteen values and every operation of the code taken
in a field `K`), for every `Transform3D` whose 4x4 matrix has a nonzero determinant,
`getInverse` is a two-sided inverse: `T.combine(T.getInverse())` and
`T.getInverse().combine(T)` are both exactly the identity matrix. -/
theorem Transform3D_getInverse_two_sided [DecidableEq K] (T : TransformBase K)
    (h : T.toMatrix.det ≠ 0) :
    Transform3D.combine T (Transform3D.getInverse T) = Identity ∧
    Transform3D.combine (Transform3D.getInverse T) T = Identity := by
  have hd : Transform3D.getInverseDet T ≠ 0 := by rwa [getInverseDet3D_eq_det]
  rw [getInverse3D_of_ne T hd]
  unfold Transform3D.combine
  rw [combine_divEntries, divEntries_combine, combine_getInverseB, getInverseB_combine]
  exact ⟨divEntries_scalar _ hd, divEntries_scalar _ hd⟩

/-- Witness for C3 at the invertible matrix with rows [2,0,0,1], [0,1,0,0], [0,0,1,0],
[0,0,0,1]. -/
theorem Transform3D_getInverse_two_sided_witness :
    Transform3D.combine (Transform3D.ctor4 (2 : ℚ) 0 0 1 0 1 0 0 0 0 1 0 0 0 0 1)
      (Transform3D.getInverse (Transform3D.ctor4 (2 : ℚ) 0 0 1 0 1 0 0 0 0 1 0 0 0 0 1))
      = Identity ∧
    Transform3D.combine
      (Transform3D.getInverse (Transform3D.ctor4 (2 : ℚ) 0 0 1 0 1 0 0 0 0 1 0 0 0 0 1))
      (Transform3D.ctor4 (2 : ℚ) 0 0 1 0 1 0 0 0 0 1 0 0 0 0 1) = Identity :=
  Transform3D_getInverse_two_sided _ (by
    rw [← getInverseDet3D_eq_det]
    norm_num [Transform3D.getInverseDet, Transform3D.getInverseB, Transform3D.ctor4, ctor4])

/-- C4, counterexample: in `float` arithmetic take the 2D `Transform` that scales both
coordinates by `2^-80`. The determinant of its 3x3 affine submatrix is `2^-160`, not zero, but
the determinant the code computes underflows to zero; `Transform::getInverse` returns the
identity, and `T.combine(T.getInverse())` is `T` itself, not the identity. -/
theorem Transform_getInverse_two_sided_fails :
    tinyScale2D.exact.affine3.det = 1 / 2 ^ 160 ∧
    tinyScale2D.exact.affine3.det ≠ 0 ∧
    Transform.getInverseDet tinyScale2D = 0 ∧
    Transform.getInverse tinyScale2D = Identity ∧
    Transform.combine tinyScale2D (Transform.getInverse tinyScale2D) = tinyScale2D ∧
    Transform.combine tinyScale2D (Transform.getInverse tinyScale2D) ≠ Identity := by
  have h : Transform.getInverseDet tinyScale2D.exact = 1 / 2 ^ 160 := by decide!
  rw [getInverseDet2D_eq_det] at h
  exact ⟨h, by rw [h]; norm_num, by decide!⟩

/-- C4, amended: in exact arithmetic (the values and every operation of the code taken in a
field `K`), for every 2D `Transform` whose 3x3 affine submatrix (indices 0,4,12 / 1,5,13 /
3,7,15) has a nonzero determinant, `Transform::getInverse` is a two-sided inverse under the 2D
`combine`: both products are exactly the identity matrix. -/
theorem Transform_getInverse_two_sided [DecidableEq K] (T : TransformBase K)
    (h : T.affine3.det ≠ 0) :
    Transform.combine T (Transform.getInverse T) = Identity ∧
    Transform.combine (Transform.getInverse T) T = Identity := by
  have hd : Transform.getInverseDet T ≠ 0 := by rwa [getInverseDet2D_eq_det]
  rw [getInverse2D_of_ne T hd]
  constructor <;> ext <;>
    simp only [Transform.combine, Transform.ctor3, ctor3, Identity, ctor] <;>
    field_simp <;> (try unfold Transform.getInverseDet) <;> ring

/-- Witness for C4 at `Transform(2,0,3, 0,1,0, 0,0,1)`. -/
theorem Transform_getInverse_two_sided_witness :
    Transform.combine (Transform.ctor3 (2 : ℚ) 0 3 0 1 0 0 0 1)
      (Transform.getInverse (Transform.ctor3 (2 : ℚ) 0 3 0 1 0 0 0 1)) = Identity ∧
    Transform.combine (Transform.getInverse (Transform.ctor3 (2 : ℚ) 0 3 0 1 0 0 0 1))
      (Transform.ctor3 (2 : ℚ) 0 3 0 1 0 0 0 1) = Identity :=
  Transform_getInverse_two_sided _ (by
    rw [← getInverseDet2D_eq_det]
    norm_num [Transform.getInverseDet, Transform.ctor3, ctor3])

/-- C5, counterexample: in `float` arithmetic the `Transform3D` with the integer rows
[-46,-37,-43,-48], [-55,10,32,-55], [-51,-45,22,-52], [-50,18,-33,-51] has the 4x4 determinant
zero, but the scalar `det` the code computes is 1, so the scalar is not the determinant and
`getInverse` returns a matrix that is not the identity. -/
theorem Transform3D_getInverse_singular_fails :
    singular3D.exact.toMatrix.det = 0 ∧
    Transform3D.getInverseDet singular3D = 1 ∧
    (Transform3D.getInverseDet singular3D).toRat ≠ singular3D.exact.toMatrix.det ∧
    Transform3D.getInverse singular3D
      = Transform3D.ctor4 (-191667) (-191667) 191667 191667
                          (-2993) (-2993) 2993 2993
                          (-3475) (-3475) 3475 3475
                          189101 189101 (-189101) (-189101) ∧
    Transform3D.getInverse singular3D ≠ Identity := by
  have h : Transform3D.getInverseDet singular3D.exact = 0 := by decide!
  rw [getInverseDet3D_eq_det] at h
  have h1 : (Transform3D.getInverseDet singular3D).toRat = 1 := by decide!
  exact ⟨h, by decide!, by rw [h, h1]; norm_num, by decide!, by decide!⟩

/-- C5, amended: in exact arithmetic (the values and every operation of the code taken in a
field `K`), for every `Transform3D` whose 4x4 matrix has determinant zero, `getInverse` returns
the identity transform, the transform built from sixteen zeros returns `Identity`, and the
scalar `det` the code tests against zero is the determinant of the 4x4 matrix. In `float`
arithmetic `getInverse` returns the identity whenever the scalar `det` it computes is zero, in
particular for the transform built from sixteen zeros. -/
theorem Transform3D_getInverse_singular [DecidableEq K] :
    (∀ T : TransformBase K, T.toMatrix.det = 0 → Transform3D.getInverse T = Identity) ∧
    Transform3D.getInverse (Transform3D.ctor4 (0 : K) 0 0 0 0 0 0 0 0 0 0 0 0 0 0 0)
      = Identity ∧
    (∀ T : TransformBase K, Transform3D.getInverseDet T = T.toMatrix.det) ∧
    (∀ T : TransformBase F32,
      Transform3D.getInverseDet T = 0 → Transform3D.getInverse T = Identity) ∧
    Transform3D.getInverse (Transform3D.ctor4 (0 : F32) 0 0 0 0 0 0 0 0 0 0 0 0 0 0 0)
      = Identity := by
  refine ⟨fun T h => ?_, ?_, getInverseDet3D_eq_det, fun T h => ?_, by decide!⟩
  · exact getInverse3D_of_eq T (by rwa [getInverseDet3D_eq_det])
  · apply getInverse3D_of_eq
    simp [Transform3D.getInverseDet, Transform3D.getInverseB, Transform3D.ctor4, ctor4]
  · simp [Transform3D.getInverse, h, Transform3D.ofBase]

/-- Witness for C5 at a singular matrix whose second row is twice its first. -/
theorem Transform3D_getInverse_singular_witness :
    Transform3D.getInverse (Transform3D.ctor4 (1 : ℚ) 2 3 4 2 4 6 8 0 0 1 0 0 0 0 1)
      = Identity :=
  (@Transform3D_getInverse_singular ℚ _ _).1 _ (by
    rw [← getInverseDet3D_eq_det]
    norm_num [Transform3D.getInverseDet, Transform3D.getInverseB, Transform3D.ctor4, ctor4])

/-- C6, counterexample: in `float` arithmetic `Transform(22,53,-262, -265,-255,39,
-243,-202,-223)` has the 3x3 determinant zero, but the scalar `det` the code computes is -1
(the product 265 * 64743 = 17156895 is rounded to 17156896), so the scalar is not the
determinant and `Transform::getInverse` returns a matrix that is not the identity. -/
theorem Transform_getInverse_singular_fails :
    singular2D.exact.affine3.det = 0 ∧
    (265 : F32) * 64743 = 17156896 ∧
    Transform.getInverseDet singular2D = -1 ∧
    (Transform.getInverseDet singular2D).toRat ≠ singular2D.exact.affine3.det ∧
    Transform.getInverse singular2D
      = Transform.ctor3 (-64743) (-64743) 64743
                        68572 68572 (-68572)
                        8435 8435 (-8435) ∧
    Transform.getInverse singular2D ≠ Identity := by
  have h : Transform.getInverseDet singular2D.exact = 0 := by decide!
  rw [getInverseDet2D_eq_det] at h
  have h1 : (Transform.getInverseDet singular2D).toRat = -1 := by decide!
  exact ⟨h, by decide!, by decide!, by rw [h, h1]; norm_num, by decide!, by decide!⟩

/-- C6, amended: in exact arithmetic (the values and every operation of the code taken in a
field `K`), for every 2D `Transform` whose 3x3 affine submatrix has determinant zero,
`Transform::getInverse` returns the identity transform, `Transform(0,0,0,0,0,0,0,0,0)` returns
`Identity`, and the scalar `det` the code tests against zero is that 3x3 determinant. In
`float` arithmetic `Transform::getInverse` returns the identity whenever the scalar `det` it
computes is zero, in particular for `Transform(0,0,0,0,0,0,0,0,0)`. -/
theorem Transform_getInverse_singular [DecidableEq K] :
    (∀ T : TransformBase K, T.affine3.det = 0 → Transform.getInverse T = Identity) ∧
    Transform.getInverse (Transform.ctor3 (0 : K) 0 0 0 0 0 0 0 0) = Identity ∧
    (∀ T : TransformBase K, Transform.getInverseDet T = T.affine3.det) ∧
    (∀ T : TransformBase F32,
      Transform.getInverseDet T = 0 → Transform.getInverse T = Identity) ∧
    Transform.getInverse (Transform.ctor3 (0 : F32) 0 0 0 0 0 0 0 0) = Identity := by
  refine ⟨fun T h => ?_, ?_, getInverseDet2D_eq_det, fun T h => ?_, by decide!⟩
  · exact getInverse2D_of_eq T (by rwa [getInverseDet2D_eq_det])
  · apply getInverse2D_of_eq
    simp [Transform.getInverseDet, Transform.ctor3, ctor3]
  · simp [Transform.getInverse, h, Transform.ofBase]

/-- Witness for C6 at `Transform(1,2,3, 2,4,6, 0,0,1)`, whose second row is twice its
first. -/
theorem Transform_getInverse_singular_witness :
    Transform.getInverse (Transform.ctor3 (1 : ℚ) 2 3 2 4 6 0 0 1) = Identity :=
  (@Transform_getInverse_singular ℚ _ _).1 _ (by
    rw [← getInverseDet2D_eq_det]
    norm_num [Transform.getInverseDet, Transform.ctor3, ctor3])

/-- C7: identity law for the general 4x4 combine: `T.combine(Identity)` and
`Identity.combine(T)` both equal `T`, for `TransformBase::combine` and for
`Transform3D::combine`, where `Identity` has ones at indices 0, 5, 10, 15 and zeros
elsewhere. -/
theorem combine_Identity (T : TransformBase K) :
    combine T Identity = T ∧ combine Identity T = T ∧
    Transform3D.combine T Identity = T ∧ Transform3D.combine Identity T = T ∧
    (Identity : TransformBase K) = ⟨1, 0, 0, 0, 0, 1, 0, 0, 0, 0, 1, 0, 0, 0, 0, 1⟩ := by
  have h1 : combine T Identity = T := by
    cases T
    simp only [combine, ctor4, Identity, ctor, mul_one, mul_zero, add_zero, zero_add]
  have h2 : combine Identity T = T := by
    cases T
    simp only [combine, ctor4, Identity, ctor, one_mul, zero_mul, add_zero, zero_add]
  exact ⟨h1, h2, h1, h2, rfl⟩

/-- C8, counterexample: the 2D `Transform` copied from the 4x4 matrix with rows [1,0,1,0],
[0,1,0,0], [0,0,1,0], [0,0,0,1] (index 8 holds 1) is changed by `combine(Identity)` and by
`Transform().combine(T)`. -/
theorem Transform_combine_Identity_fails :
    Transform.combine (Transform.ofBase (Transform3D.ctor4 (1 : ℚ) 0 1 0 0 1 0 0 0 0 1 0 0 0 0 1))
        (Transform.ofBase Identity)
      ≠ Transform.ofBase (Transform3D.ctor4 (1 : ℚ) 0 1 0 0 1 0 0 0 0 1 0 0 0 0 1) ∧
    Transform.combine Transform.ctor
        (Transform.ofBase (Transform3D.ctor4 (1 : ℚ) 0 1 0 0 1 0 0 0 0 1 0 0 0 0 1))
      ≠ Transform.ofBase (Transform3D.ctor4 (1 : ℚ) 0 1 0 0 1 0 0 0 0 1 0 0 0 0 1) := by
  constructor <;> intro h <;>
    simpa [Transform.combine, Transform.ctor3, ctor3, Transform.ofBase, Transform.ctor,
      Transform3D.ctor4, ctor4, Identity, ctor] using congrArg TransformBase.m8 h

/-- C8, amended: for every 2D `Transform` value `T`, `T.combine(Identity)` and
`Transform().combine(T)` both equal `Transform(m0,m4,m12, m1,m5,m13, m3,m7,m15)`, that is `T`
with its z row and column reset; both equal `T` in all 16 entries exactly when `T` satisfies
the 2D invariant, which every value made by the default or the 3x3 constructor does. -/
theorem Transform_combine_Identity (T : TransformBase K) :
    Transform.combine T Identity
      = Transform.ctor3 T.m0 T.m4 T.m12 T.m1 T.m5 T.m13 T.m3 T.m7 T.m15 ∧
    Transform.combine Transform.ctor T
      = Transform.ctor3 T.m0 T.m4 T.m12 T.m1 T.m5 T.m13 T.m3 T.m7 T.m15 ∧
    ((Transform.combine T Identity = T ∧ Transform.combine Transform.ctor T = T) ↔ T.Is2D) ∧
    (Transform.ctor : TransformBase K).Is2D ∧
    (∀ a00 a01 a02 a10 a11 a12 a20 a21 a22 : K,
      (Transform.ctor3 a00 a01 a02 a10 a11 a12 a20 a21 a22).Is2D) := by
  have h1 : Transform.combine T Identity
      = Transform.ctor3 T.m0 T.m4 T.m12 T.m1 T.m5 T.m13 T.m3 T.m7 T.m15 := by
    simp only [Transform.combine, Identity, ctor, mul_one, mul_zero, add_zero, zero_add]
  have h2 : Transform.combine Transform.ctor T
      = Transform.ctor3 T.m0 T.m4 T.m12 T.m1 T.m5 T.m13 T.m3 T.m7 T.m15 := by
    simp only [Transform.combine, Transform.ctor, ctor, one_mul, zero_mul, add_zero, zero_add]
  have h3 : Transform.ctor3 T.m0 T.m4 T.m12 T.m1 T.m5 T.m13 T.m3 T.m7 T.m15 = T ↔ T.Is2D := by
    cases T
    simp only [Transform.ctor3, ctor3, Is2D, mk.injEq, true_and, and_true]
    constructor
    · rintro ⟨a, b, c, d, e, f, g⟩
      exact ⟨a.symm, b.symm, c.symm, d.symm, f.symm, g.symm, e.symm⟩
    · rintro ⟨a, b, c, d, e, f, g⟩
      exact ⟨a.symm, b.symm, c.symm, d.symm, g.symm, e.symm, f.symm⟩
  refine ⟨h1, h2, ?_, ?_, ?_⟩
  · rw [h1, h2, and_self, h3]
  · simp [Transform.ctor, ctor, Is2D]
  · intros
    simp [Transform.ctor3, ctor3, Is2D]

/-- C9: evaluation of the code where the claim fails. Whatever `std::cos` and `std::sin`
return (in particular 0 and 1), `Transform().translate(10,0).rotate(90)` maps the point (0,0)
to (10,0), not to (0,10). -/
theorem translate_rotate_origin (M : CMath ℚ) :
    (Transform.rotate M (Transform.translate Transform.ctor 10 0) 90).transformPointV ⟨0, 0⟩
      = ⟨10, 0⟩ ∧
    (Transform.rotate M (Transform.translate Transform.ctor 10 0) 90).transformPointV ⟨0, 0⟩
      ≠ ⟨0, 10⟩ := by
  have h : (Transform.rotate M (Transform.translate Transform.ctor 10 0) 90).transformPointV
      ⟨0, 0⟩ = ⟨10, 0⟩ := by
    simp [Transform.rotate, Transform.translate, Transform.combine, Transform.ctor3, ctor3,
      Transform.ctor, ctor, transformPointV, transformPoint]
  refine ⟨h, ?_⟩
  rw [h]
  simp

/-- C10: evaluation of the code where the claim fails. With cos = 0 and sin = 1, receiver
`Transform()` and center (1,0), `rotate(90, 1, 0)` is the matrix `Transform(0,-1,1, 1,0,-1,
0,0,1)` while `translate(-1,-0).rotate(90).translate(1,0)` is `Transform(0,-1,-1, 1,0,1,
0,0,1)`. -/
theorem rotateAbout_ne_translate_rotate_translate :
    (Transform.ctor : TransformBase ℚ).Is2D ∧
    Transform.rotateAbout quarterTurn Transform.ctor 90 1 0
      = Transform.ctor3 0 (-1) 1 1 0 (-1) 0 0 1 ∧
    Transform.translate
        (Transform.rotate quarterTurn (Transform.translate Transform.ctor (-1) (-0)) 90) 1 0
      = Transform.ctor3 0 (-1) (-1) 1 0 1 0 0 1 ∧
    Transform.rotateAbout quarterTurn Transform.ctor 90 1 0
      ≠ Transform.translate
        (Transform.rotate quarterTurn (Transform.translate Transform.ctor (-1) (-0)) 90) 1 0 := by
  have h1 : Transform.rotateAbout quarterTurn Transform.ctor 90 1 0
      = Transform.ctor3 0 (-1) 1 1 0 (-1) 0 0 1 := by
    norm_num [Transform.rotateAbout, Transform.combine, Transform.ctor3, ctor3, Transform.ctor,
      ctor, quarterTurn]
  have h2 : Transform.translate
        (Transform.rotate quarterTurn (Transform.translate Transform.ctor (-1) (-0)) 90) 1 0
      = Transform.ctor3 0 (-1) (-1) 1 0 1 0 0 1 := by
    norm_num [Transform.rotate, Transform.translate, Transform.combine, Transform.ctor3, ctor3,
      Transform.ctor, ctor, quarterTurn]
  refine ⟨by simp [Transform.ctor, ctor, Is2D], h1, h2, ?_⟩
  rw [h1, h2]
  intro h
  have := congrArg TransformBase.m12 h
  norm_num [Transform.ctor3, ctor3] at this

variable {F : Type} [LinearOrderedField F]

/-- C11: over a linearly ordered field, for every transform and every rectangle (any signs of
width and height), `transformRect` returns the minimal axis-aligned box of the four transformed
corners: `left` and `top` are the minima of the four x and y, `left + width` and
`top + height` the maxima; hence width and height are nonnegative and every transformed corner
lies inside the result. -/
theorem transformRect_bounding_box (T : TransformBase F) (r : Rect F) :
    (T.transformRect r).left
      = min (min (min (corners T r 0).x (corners T r 1).x) (corners T r 2).x)
          (corners T r 3).x ∧
    (T.transformRect r).top
      = min (min (min (corners T r 0).y (corners T r 1).y) (corners T r 2).y)
          (corners T r 3).y ∧
    (T.transformRect r).left + (T.transformRect r).width
      = max (max (max (corners T r 0).x (corners T r 1).x) (corners T r 2).x)
          (corners T r 3).x ∧
    (T.transformRect r).top + (T.transformRect r).height
      = max (max (max (corners T r 0).y (corners T r 1).y) (corners T r 2).y)
          (corners T r 3).y ∧
    0 ≤ (T.transformRect r).width ∧ 0 ≤ (T.transformRect r).height ∧
    ∀ i : Fin 4,
      (T.transformRect r).left ≤ (corners T r i).x ∧
      (corners T r i).x ≤ (T.transformRect r).left + (T.transformRect r).width ∧
      (T.transformRect r).top ≤ (corners T r i).y ∧
      (corners T r i).y ≤ (T.transformRect r).top + (T.transformRect r).height := by
  rw [transformRect_eq]
  refine ⟨rfl, rfl, by simp, by simp, ?_, ?_, ?_⟩
  · simp only [sub_nonneg]
    exact min_le_max_of_le (min_le_max_of_le (min_le_max_of_le le_rfl))
  · simp only [sub_nonneg]
    exact min_le_max_of_le (min_le_max_of_le (min_le_max_of_le le_rfl))
  · intro i
    simp only [add_sub_cancel]
    fin_cases i <;> simp [le_max_iff, min_le_iff]

omit [Field K] in
/-- C12: memory layout. For sixteen values given in row-major argument order,
`Transform3D(a00, ..., a33).getMatrix()` holds `a_rc` at index `c*4+r`, for every row `r` and
column `c`. -/
theorem Transform3D_getMatrix_column_major (a : Fin 4 → Fin 4 → K) (r c : Fin 4) :
    (Transform3D.ctor4 (a 0 0) (a 0 1) (a 0 2) (a 0 3)
                       (a 1 0) (a 1 1) (a 1 2) (a 1 3)
                       (a 2 0) (a 2 1) (a 2 2) (a 2 3)
                       (a 3 0) (a 3 1) (a 3 2) (a 3 3)).getMatrix
        ⟨c.val * 4 + r.val, by omega⟩ = a r c := by
  fin_cases r <;> fin_cases c <;> rfl

/-- C13: the 3x3 constructor `Transform(a00, ..., a22)` stores a00, a01, a02 at indices 0, 4, 12,
a10, a11, a12 at indices 1, 5, 13, a20, a21, a22 at indices 3, 7, 15, and the neutral z row and
column: 0 at indices 2, 6, 8, 9, 11, 14 and 1 at index 10. -/
theorem Transform_ctor3_layout (a00 a01 a02 a10 a11 a12 a20 a21 a22 : K) :
    (Transform.ctor3 a00 a01 a02 a10 a11 a12 a20 a21 a22).getMatrix
      = ![a00, a10, 0, a20, a01, a11, 0, a21, 0, 0, 1, 0, a02, a12, 0, a22] ∧
    (Transform.ctor3 a00 a01 a02 a10 a11 a12 a20 a21 a22).Is2D := by
  refine ⟨rfl, ?_⟩
  simp [Transform.ctor3, ctor3, Is2D]

/-- C14: 2D invariant. For every receiver and every argument, also with arbitrary 4x4 matrices,
the result of `Transform::combine`, `translate`, `rotate`, rotate about a center, `scale`,
scale about a center (each with its vector overload) and `getInverse` has 0 at indices
2, 6, 8, 9, 11, 14 and 1 at index 10. -/
theorem Transform_operations_Is2D [DecidableEq K] (M : CMath K) (t b : TransformBase K)
    (x y angle cx cy sx sy : K) (v c : Vector2 K) :
    (Transform.combine t b).Is2D ∧
    (Transform.translate t x y).Is2D ∧ (Transform.translateV t v).Is2D ∧
    (Transform.rotate M t angle).Is2D ∧
    (Transform.rotateAbout M t angle cx cy).Is2D ∧ (Transform.rotateAboutV M t angle c).Is2D ∧
    (Transform.scale t sx sy).Is2D ∧ (Transform.scaleV t v).Is2D ∧
    (Transform.scaleAbout t sx sy cx cy).Is2D ∧ (Transform.scaleAboutV t v c).Is2D ∧
    (Transform.getInverse t).Is2D := by
  refine ⟨is2D_combine _ _, is2D_combine _ _, is2D_combine _ _, is2D_combine _ _,
    is2D_combine _ _, is2D_combine _ _, is2D_combine _ _, is2D_combine _ _, is2D_combine _ _,
    is2D_combine _ _, ?_⟩
  by_cases h : Transform.getInverseDet t = 0
  · rw [getInverse2D_of_eq t h]
    simp [Identity, ctor, Is2D]
  · rw [getInverse2D_of_ne t h]
    exact is2D_ctor3 _ _ _ _ _ _ _ _ _

/-- C15: on the 2D subspace the specialised `Transform::combine` agrees with the general
`TransformBase::combine`: if `a` and `b` both satisfy the 2D invariant, the two results have
the same sixteen values. -/
theorem Transform_combine_eq_base_combine (a b : TransformBase K) (ha : a.Is2D) (hb : b.Is2D) :
    Transform.combine a b = TransformBase.combine a b := by
  obtain ⟨a2, a6, a8, a9, a11, a14, a10⟩ := ha
  obtain ⟨b2, b6, b8, b9, b11, b14, b10⟩ := hb
  simp only [Transform.combine, Transform.ctor3, ctor3, combine, ctor4, a2, a6, a8, a9, a11,
    a14, a10, b2, b6, b8, b9, b11, b14, b10, mul_zero, zero_mul, add_zero, zero_add, mul_one]

/-- Witness for C15 at `Transform(1,...,9)` and `Transform(9,...,1)`. -/
theorem Transform_combine_eq_base_combine_witness :
    Transform.combine (Transform.ctor3 (1 : ℚ) 2 3 4 5 6 7 8 9)
        (Transform.ctor3 (9 : ℚ) 8 7 6 5 4 3 2 1)
      = TransformBase.combine (Transform.ctor3 (1 : ℚ) 2 3 4 5 6 7 8 9)
        (Transform.ctor3 (9 : ℚ) 8 7 6 5 4 3 2 1) :=
  Transform_combine_eq_base_combine _ _ (is2D_ctor3 _ _ _ _ _ _ _ _ _)
    (is2D_ctor3 _ _ _ _ _ _ _ _ _)

/-- C16: `transformPoint(x,y,z)` is `(m0*x+m4*y+m8*z+m12, m1*x+m5*y+m9*z+m13,
m2*x+m6*y+m10*z+m14)`, the same for the `Vector3f` overload; the bottom row is never read:
overwriting indices 3, 7, 11, 15 changes no image, and two transforms that agree at the other
twelve indices map every point to the same result. -/
theorem transformPoint3_ignores_w :
    (∀ (m : TransformBase K) (x y z : K),
      m.transformPoint3 x y z
        = ⟨m.m0 * x + m.m4 * y + m.m8 * z + m.m12,
           m.m1 * x + m.m5 * y + m.m9 * z + m.m13,
           m.m2 * x + m.m6 * y + m.m10 * z + m.m14⟩ ∧
      m.transformPointV3 ⟨x, y, z⟩ = m.transformPoint3 x y z) ∧
    (∀ (m : TransformBase K) (w3 w7 w11 w15 x y z : K),
      ({ m with m3 := w3, m7 := w7, m11 := w11, m15 := w15 } : TransformBase K).transformPoint3
        x y z = m.transformPoint3 x y z) ∧
    (∀ (m n : TransformBase K),
      (m.m0 = n.m0 ∧ m.m1 = n.m1 ∧ m.m2 = n.m2 ∧ m.m4 = n.m4 ∧ m.m5 = n.m5 ∧ m.m6 = n.m6 ∧
        m.m8 = n.m8 ∧ m.m9 = n.m9 ∧ m.m10 = n.m10 ∧ m.m12 = n.m12 ∧ m.m13 = n.m13 ∧
        m.m14 = n.m14) →
      ∀ x y z : K, m.transformPoint3 x y z = n.transformPoint3 x y z) := by
  refine ⟨fun m x y z => ⟨rfl, rfl⟩, fun m w3 w7 w11 w15 x y z => rfl, ?_⟩
  rintro m n ⟨h0, h1, h2, h4, h5, h6, h8, h9, h10, h12, h13, h14⟩ x y z
  simp only [transformPoint3, h0, h1, h2, h4, h5, h6, h8, h9, h10, h12, h13, h14]

/-- Witness for C16: two matrices with the same first three rows and bottom rows
[4, 8, 12, 16] and [0, 0, 0, 1]. -/
theorem transformPoint3_ignores_w_witness :
    (Transform3D.ctor4 (1 : ℚ) 2 3 4 5 6 7 8 9 10 11 12 13 14 15 16).transformPoint3 1 2 3
      = (Transform3D.ctor4 (1 : ℚ) 2 3 4 5 6 7 8 9 10 11 12 0 0 0 1).transformPoint3 1 2 3 :=
  (@transformPoint3_ignores_w ℚ _).2.2 _ _
    ⟨rfl, rfl, rfl, rfl, rfl, rfl, rfl, rfl, rfl, rfl, rfl, rfl⟩ 1 2 3

/-- C17: evaluation of the code where the claim fails. `Transform3D().orthographic(-1,1,-1,1,
1,3)` is the matrix with rows [1,0,0,0], [0,1,0,0], [0,0,-1,-2], [0,0,0,1]; it maps x = left,
y = bottom to -1 and x = right, y = top to +1, but z = znear = 1 to -3 and z = zfar = 3 to -5;
the depths sent to -1 and +1 are z = -znear and z = -zfar. -/
theorem orthographic_z_fails :
    (Transform3D.orthographic (Transform3D.ctor : TransformBase ℚ) (-1) 1 (-1) 1 1 3)
      = Transform3D.ctor4 1 0 0 0 0 1 0 0 0 0 (-1) (-2) 0 0 0 1 ∧
    (Transform3D.orthographic (Transform3D.ctor : TransformBase ℚ) (-1) 1 (-1) 1 1
        3).transformPoint3 (-1) (-1) 1 = ⟨-1, -1, -3⟩ ∧
    (Transform3D.orthographic (Transform3D.ctor : TransformBase ℚ) (-1) 1 (-1) 1 1
        3).transformPoint3 1 1 3 = ⟨1, 1, -5⟩ ∧
    (Transform3D.orthographic (Transform3D.ctor : TransformBase ℚ) (-1) 1 (-1) 1 1
        3).transformPoint3 (-1) (-1) (-1) = ⟨-1, -1, -1⟩ ∧
    (Transform3D.orthographic (Transform3D.ctor : TransformBase ℚ) (-1) 1 (-1) 1 1
        3).transformPoint3 1 1 (-3) = ⟨1, 1, 1⟩ := by
  have h : (Transform3D.orthographic (Transform3D.ctor : TransformBase ℚ) (-1) 1 (-1) 1 1 3)
      = Transform3D.ctor4 1 0 0 0 0 1 0 0 0 0 (-1) (-2) 0 0 0 1 := by
    norm_num [Transform3D.orthographic, Transform3D.combine, combine, Transform3D.ctor4, ctor4,
      Transform3D.ctor, ctor]
  rw [h]
  norm_num [Transform3D.ctor4, ctor4, transformPoint3]

/-- C19: evaluation of the code where the claim fails. `Transform3D().scale(2, c)` with
c = (1,0,0) maps c to (3,0,0), and `Transform3D().scale((2,3,4), (1,1,1))` maps (1,1,1) to
(3,5,7); the point each of them leaves fixed is -c. -/
theorem Transform3D_scaleAbout_center_moves :
    (Transform3D.scaleAbout (Transform3D.ctor : TransformBase ℚ) 2 ⟨1, 0, 0⟩).transformPointV3
        ⟨1, 0, 0⟩ = ⟨3, 0, 0⟩ ∧
    (Transform3D.scaleAbout (Transform3D.ctor : TransformBase ℚ) 2 ⟨1, 0, 0⟩).transformPointV3
        (-⟨1, 0, 0⟩) = -⟨1, 0, 0⟩ ∧
    (Transform3D.scaleVAbout (Transform3D.ctor : TransformBase ℚ) ⟨2, 3, 4⟩
        ⟨1, 1, 1⟩).transformPointV3 ⟨1, 1, 1⟩ = ⟨3, 5, 7⟩ ∧
    (Transform3D.scaleVAbout (Transform3D.ctor : TransformBase ℚ) ⟨2, 3, 4⟩
        ⟨1, 1, 1⟩).transformPointV3 (-⟨1, 1, 1⟩) = -⟨1, 1, 1⟩ := by
  have hneg : ∀ a b c : ℚ, (-(⟨a, b, c⟩ : Vector3 ℚ)) = ⟨-a, -b, -c⟩ := fun _ _ _ => rfl
  norm_num [Transform3D.scaleAbout, Transform3D.scaleVAbout, Transform3D.scale,
    Transform3D.scaleV, Transform3D.translate, Transform3D.combine, combine,
    Transform3D.ctor4, ctor4, Transform3D.ctor, ctor, transformPointV3, transformPoint3, hneg]

/-- C20: evaluation of the code where the claim fails. With cos = 0 and sin = 1, the unit axis
(0,0,1) and center p = (1,0,0), `Transform3D().rotate(90, axis, p)` maps p to (-1,2,0); the
point it leaves fixed is -p. -/
theorem Transform3D_rotateAbout_center_moves :
    quarterTurn.cos (90 * 3.141592654 / 180) = 0 ∧
    quarterTurn.sin (90 * 3.141592654 / 180) = 1 ∧
    (Transform3D.rotateAbout quarterTurn Transform3D.ctor 90 ⟨0, 0, 1⟩
        ⟨1, 0, 0⟩).transformPointV3 ⟨1, 0, 0⟩ = ⟨-1, 2, 0⟩ ∧
    (Transform3D.rotateAbout quarterTurn Transform3D.ctor 90 ⟨0, 0, 1⟩
        ⟨1, 0, 0⟩).transformPointV3 (-⟨1, 0, 0⟩) = -⟨1, 0, 0⟩ := by
  have hneg : ∀ a b c : ℚ, (-(⟨a, b, c⟩ : Vector3 ℚ)) = ⟨-a, -b, -c⟩ := fun _ _ _ => rfl
  norm_num [Transform3D.rotateAbout, Transform3D.rotate, Transform3D.translate,
    Transform3D.combine, combine, Transform3D.ctor4, ctor4, Transform3D.ctor, ctor,
    transformPointV3, transformPoint3, hneg, quarterTurn]

/-- C21, counterexample: in `float` arithmetic `Transform().scale(0.1f, 0.1f, 3, 3)` stores
`3 * (1 - 0.1f)`, rounded to 2.6999998, at indices 12 and 13, and `transformPoint(3, 3)` is
(2.9999998, 2.9999998): the pivot (3,3) is not mapped to itself, and the image is not
`(cx + sx*(x-cx), cy + sy*(y-cy))`, which is (3,3) here. -/
theorem Transform_scaleAbout_point_fails :
    (Transform.scaleAbout Transform.ctor (0.1 : F32) 0.1 3 3).m12 = 2.6999998 ∧
    (Transform.scaleAbout Transform.ctor (0.1 : F32) 0.1 3 3).m13 = 2.6999998 ∧
    (Transform.scaleAbout Transform.ctor (0.1 : F32) 0.1 3 3).transformPoint 3 3
      = ⟨2.9999998, 2.9999998⟩ ∧
    (Transform.scaleAbout Transform.ctor (0.1 : F32) 0.1 3 3).transformPoint 3 3 ≠ ⟨3, 3⟩ ∧
    (Transform.scaleAbout Transform.ctor (0.1 : F32) 0.1 3 3).transformPoint 3 3
      ≠ ⟨3 + 0.1 * (3 - 3), 3 + 0.1 * (3 - 3)⟩ := by
  decide!

/-- C21, amended: 2D scale about a pivot, in exact arithmetic (the values and every operation
of the code taken in a field `K`). `Transform().scale(sx,sy,cx,cy).transformPoint(x,y)` is
`(cx + sx*(x-cx), cy + sy*(y-cy))`; the pivot is mapped to itself and the translation terms of
the matrix (indices 12 and 13) are `cx*(1-sx)` and `cy*(1-sy)`; the same holds for the vector
overload. -/
theorem Transform_scaleAbout_point (sx sy cx cy x y : K) :
    (Transform.scaleAbout Transform.ctor sx sy cx cy).transformPoint x y
      = ⟨cx + sx * (x - cx), cy + sy * (y - cy)⟩ ∧
    (Transform.scaleAbout Transform.ctor sx sy cx cy).transformPoint cx cy = ⟨cx, cy⟩ ∧
    (Transform.scaleAbout Transform.ctor sx sy cx cy).m12 = cx * (1 - sx) ∧
    (Transform.scaleAbout Transform.ctor sx sy cx cy).m13 = cy * (1 - sy) ∧
    (Transform.scaleAboutV Transform.ctor ⟨sx, sy⟩ ⟨cx, cy⟩).transformPointV ⟨x, y⟩
      = ⟨cx + sx * (x - cx), cy + sy * (y - cy)⟩ := by
  have hm : Transform.scaleAbout Transform.ctor sx sy cx cy
      = Transform.ctor3 sx 0 (cx * (1 - sx)) 0 sy (cy * (1 - sy)) 0 0 1 := by
    simp only [Transform.scaleAbout, Transform.combine, Transform.ctor, Transform.ctor3, ctor,
      ctor3, one_mul, zero_mul, mul_zero, mul_one, add_zero, zero_add]
  simp only [Transform.scaleAboutV, transformPointV, hm, Transform.ctor3, ctor3, transformPoint,
    Vector2.mk.injEq]
  refine ⟨⟨?_, ?_⟩, ⟨?_, ?_⟩, trivial, trivial, ?_, ?_⟩ <;> ring

/-- C22, counterexample: in `float` arithmetic, with the cosine 0.49999997 and the sine
0.86602545 of 60 degrees, `Transform().rotate(60, 0.1f, 5).transformPoint(0.1f, 5)` is
(0.10000038, 5): the pivot (0.1, 5) is not mapped to itself, and the image is not
`(cx + c*(x-cx) - s*(y-cy), cy + s*(x-cx) + c*(y-cy))`, which is (0.1, 5) here. -/
theorem Transform_rotateAbout_point_fails :
    (Transform.rotateAbout sixtyDegrees Transform.ctor 60 0.1 5).transformPoint 0.1 5
      = ⟨0.10000038, 5⟩ ∧
    (Transform.rotateAbout sixtyDegrees Transform.ctor 60 0.1 5).transformPoint 0.1 5
      ≠ ⟨0.1, 5⟩ ∧
    (Transform.rotateAbout sixtyDegrees Transform.ctor 60 0.1 5).transformPoint 0.1 5
      ≠ ⟨0.1 + 0.49999997 * (0.1 - 0.1) - 0.86602545 * (5 - 5),
         5 + 0.86602545 * (0.1 - 0.1) + 0.49999997 * (5 - 5)⟩ := by
  decide!

/-- C22, amended: 2D rotation about a pivot, in exact arithmetic (the values and every
operation of the code taken in a field `K`). With `c` and `s` the values `std::cos` and
`std::sin` return for the angle, `Transform().rotate(angle,cx,cy).transformPoint(x,y)` is
`(cx + c*(x-cx) - s*(y-cy), cy + s*(x-cx) + c*(y-cy))`, and the pivot is mapped to itself; the
same holds for the vector overload. -/
theorem Transform_rotateAbout_point (M : CMath K) (angle cx cy x y c s : K)
    (hc : c = M.cos (angle * 3.141592654 / 180))
    (hs : s = M.sin (angle * 3.141592654 / 180)) :
    (Transform.rotateAbout M Transform.ctor angle cx cy).transformPoint x y
      = ⟨cx + c * (x - cx) - s * (y - cy), cy + s * (x - cx) + c * (y - cy)⟩ ∧
    (Transform.rotateAbout M Transform.ctor angle cx cy).transformPoint cx cy = ⟨cx, cy⟩ ∧
    (Transform.rotateAboutV M Transform.ctor angle ⟨cx, cy⟩).transformPointV ⟨x, y⟩
      = ⟨cx + c * (x - cx) - s * (y - cy), cy + s * (x - cx) + c * (y - cy)⟩ := by
  have hm : Transform.rotateAbout M Transform.ctor angle cx cy
      = Transform.ctor3 c (-s) (cx * (1 - c) + cy * s) s c (cy * (1 - c) - cx * s) 0 0 1 := by
    simp only [Transform.rotateAbout, Transform.combine, Transform.ctor, Transform.ctor3, ctor,
      ctor3, one_mul, zero_mul, mul_zero, mul_one, add_zero, zero_add, ← hc, ← hs]
  simp only [Transform.rotateAboutV, transformPointV, hm, Transform.ctor3, ctor3,
    transformPoint, Vector2.mk.injEq]
  refine ⟨⟨?_, ?_⟩, ⟨?_, ?_⟩, ?_, ?_⟩ <;> ring

/-- Witness for C22 with cos = 0, sin = 1, center (1,2) and point (3,5). -/
theorem Transform_rotateAbout_point_witness :
    (Transform.rotateAbout quarterTurn Transform.ctor 90 1 2).transformPoint 3 5
      = ⟨1 + 0 * (3 - 1) - 1 * (5 - 2), 2 + 1 * (3 - 1) + 0 * (5 - 2)⟩ :=
  (Transform_rotateAbout_point quarterTurn 90 1 2 3 5 0 1 rfl rfl).1

/-- C23: `Transform().scale(sx,sy).transformPoint(x,y)` is `(sx*x, sy*y)`, the same for the
vector overload, and `Transform().scale(2,2)` maps (3,4) to (6,8). -/
theorem Transform_scale_point (sx sy x y : K) :
    (Transform.scale Transform.ctor sx sy).transformPoint x y = ⟨sx * x, sy * y⟩ ∧
    (Transform.scaleV Transform.ctor ⟨sx, sy⟩).transformPointV ⟨x, y⟩ = ⟨sx * x, sy * y⟩ ∧
    (Transform.scale (Transform.ctor : TransformBase ℚ) 2 2).transformPoint 3 4 = ⟨6, 8⟩ := by
  have h : ∀ (F : Type) [Field F] (a b u v : F),
      (Transform.scale Transform.ctor a b).transformPoint u v = ⟨a * u, b * v⟩ := by
    intro F _ a b u v
    simp only [Transform.scale, Transform.combine, Transform.ctor, Transform.ctor3, ctor,
      ctor3, transformPoint, one_mul, zero_mul, mul_zero, mul_one, add_zero, zero_add]
  refine ⟨h K sx sy x y, h K sx sy x y, ?_⟩
  rw [h ℚ 2 2 3 4]
  norm_num

/-- C24: `Transform3D().translate(v).transformPoint(p)` is `p + v` componentwise, and
`Transform3D().translate({1,2,3})` maps (0,0,0) to (1,2,3). -/
theorem Transform3D_translate_point (v p : Vector3 K) :
    (Transform3D.translate Transform3D.ctor v).transformPointV3 p
      = ⟨p.x + v.x, p.y + v.y, p.z + v.z⟩ ∧
    (Transform3D.translate (Transform3D.ctor : TransformBase ℚ) ⟨1, 2, 3⟩).transformPointV3
      ⟨0, 0, 0⟩ = ⟨1, 2, 3⟩ := by
  have h : ∀ (F : Type) [Field F] (v p : Vector3 F),
      (Transform3D.translate Transform3D.ctor v).transformPointV3 p
        = ⟨p.x + v.x, p.y + v.y, p.z + v.z⟩ := by
    intro F _ v p
    simp only [Transform3D.translate, Transform3D.combine, combine, Transform3D.ctor,
      Transform3D.ctor4, ctor, ctor4, transformPointV3, transformPoint3, one_mul, zero_mul,
      mul_zero, mul_one, add_zero, zero_add]
  refine ⟨h K v p, ?_⟩
  rw [h ℚ]
  norm_num

/-- C25: with `f = normalize(eye - target)`, `r = normalize(cross(up, f))` and
`u = normalize(cross(f, r))`, for any function `normalize`, `Transform3D().lookAt(eye, target,
up)` is the matrix whose columns are r, u, f and (0,0,0,1), with fourth row [0,0,0,1]; it maps
(1,0,0), (0,1,0), (0,0,1) to r, u, f. -/
theorem lookAt_columns (normalize : Vector3 K → Vector3 K) (eye target up f r u : Vector3 K)
    (hf : f = normalize (eye - target)) (hr : r = normalize (cross up f))
    (hu : u = normalize (cross f r)) :
    Transform3D.lookAt normalize Transform3D.ctor eye target up
      = Transform3D.ctor4 r.x u.x f.x 0
                          r.y u.y f.y 0
                          r.z u.z f.z 0
                          0 0 0 1 ∧
    (Transform3D.lookAt normalize Transform3D.ctor eye target up).getMatrix
      = ![r.x, r.y, r.z, 0, u.x, u.y, u.z, 0, f.x, f.y, f.z, 0, 0, 0, 0, 1] ∧
    (Transform3D.lookAt normalize Transform3D.ctor eye target up).transformPoint3 1 0 0 = r ∧
    (Transform3D.lookAt normalize Transform3D.ctor eye target up).transformPoint3 0 1 0 = u ∧
    (Transform3D.lookAt normalize Transform3D.ctor eye target up).transformPoint3 0 0 1 = f := by
  have hm : Transform3D.lookAt normalize Transform3D.ctor eye target up
      = Transform3D.ctor4 r.x u.x f.x 0 r.y u.y f.y 0 r.z u.z f.z 0 0 0 0 1 := by
    subst hf hr hu
    simp only [Transform3D.lookAt, Transform3D.combine, combine, Transform3D.ctor,
      Transform3D.ctor4, ctor, ctor4, one_mul, zero_mul, mul_zero, mul_one, add_zero, zero_add]
  rw [hm]
  refine ⟨rfl, rfl, ?_, ?_, ?_⟩ <;>
    simp only [Transform3D.ctor4, ctor4, transformPoint3, mul_one, mul_zero, add_zero, zero_add]

/-- Witness for C25 with `normalize` the identity, eye (0,0,1), target (0,0,0), up (0,1,0). -/
theorem lookAt_columns_witness :
    Transform3D.lookAt id (Transform3D.ctor : TransformBase ℚ) ⟨0, 0, 1⟩ ⟨0, 0, 0⟩ ⟨0, 1, 0⟩
      = Transform3D.ctor4 1 0 0 0 0 1 0 0 0 0 1 0 0 0 0 1 :=
  (lookAt_columns id (⟨0, 0, 1⟩ : Vector3 ℚ) ⟨0, 0, 0⟩ ⟨0, 1, 0⟩ ⟨0, 0, 1⟩ ⟨1, 0, 0⟩ ⟨0, 1, 0⟩
    (by ext <;> norm_num [HSub.hSub, Sub.sub])
    (by ext <;> norm_num [cross])
    (by ext <;> norm_num [cross])).1

/-- C26, counterexample: in `float` arithmetic, with the cosine -4.371139e-8 and the sine 1 of
90 degrees, the axis (0,0,1) has `x*x + y*y + z*z = 1`, but
`Transform3D().rotate(90, axis).transformPoint(axis)` is (0, 0, 0.99999994), not the axis:
index 10 of the matrix is `zz * (1 - cos) + cos` with `1 - cos` rounded to 1. -/
theorem Transform3D_rotate_about_axis_fails :
    (0 : F32) * 0 + 0 * 0 + 1 * 1 = 1 ∧
    (Transform3D.rotate ninetyDegrees Transform3D.ctor 90 ⟨0, 0, 1⟩).m10 = 0.99999994 ∧
    (Transform3D.rotate ninetyDegrees Transform3D.ctor 90 ⟨0, 0, 1⟩).transformPointV3 ⟨0, 0, 1⟩
      = ⟨0, 0, 0.99999994⟩ ∧
    (Transform3D.rotate ninetyDegrees Transform3D.ctor 90 ⟨0, 0, 1⟩).transformPointV3 ⟨0, 0, 1⟩
      ≠ ⟨0, 0, 1⟩ := by
  decide!

/-- C26, amended: in exact arithmetic (the values and every operation of the code taken in a
field `K`), with `c` and `s` the values `std::cos` and `std::sin` return for the angle and an
axis `a` with `x*x + y*y + z*z = 1`, the matrix built by `Transform3D().rotate(angle, a)` is
the rotation about `a`: every point `p` is mapped to `c*p + s*(a x p) + (1-c)*(a.p)*a`; the
axis is mapped to itself; and a point `p` perpendicular to the axis is mapped to
`c*p + s*(a x p)`, again perpendicular to the axis, where `a x p` is perpendicular to the axis
and has the same squared length as `p`. -/
theorem Transform3D_rotate_about_axis (M : CMath K) (angle c s : K) (axis : Vector3 K)
    (hc : c = M.cos (angle * 3.141592654 / 180))
    (hs : s = M.sin (angle * 3.141592654 / 180))
    (h : axis.x * axis.x + axis.y * axis.y + axis.z * axis.z = 1) :
    (∀ p : Vector3 K,
      (Transform3D.rotate M Transform3D.ctor angle axis).transformPointV3 p
        = ⟨c * p.x + s * (cross axis p).x + (1 - c) * axis.dot p * axis.x,
           c * p.y + s * (cross axis p).y + (1 - c) * axis.dot p * axis.y,
           c * p.z + s * (cross axis p).z + (1 - c) * axis.dot p * axis.z⟩) ∧
    (Transform3D.rotate M Transform3D.ctor angle axis).transformPointV3 axis = axis ∧
    (∀ p : Vector3 K, axis.dot p = 0 →
      (Transform3D.rotate M Transform3D.ctor angle axis).transformPointV3 p
        = ⟨c * p.x + s * (cross axis p).x,
           c * p.y + s * (cross axis p).y,
           c * p.z + s * (cross axis p).z⟩ ∧
      axis.dot ((Transform3D.rotate M Transform3D.ctor angle axis).transformPointV3 p) = 0 ∧
      axis.dot (cross axis p) = 0 ∧
      (cross axis p).dot (cross axis p) = p.dot p) := by
  obtain ⟨x, y, z⟩ := axis
  simp only at h
  have hR : ∀ p : Vector3 K,
      (Transform3D.rotate M Transform3D.ctor angle ⟨x, y, z⟩).transformPointV3 p
        = ⟨c * p.x + s * (cross ⟨x, y, z⟩ p).x + (1 - c) * Vector3.dot ⟨x, y, z⟩ p * x,
           c * p.y + s * (cross ⟨x, y, z⟩ p).y + (1 - c) * Vector3.dot ⟨x, y, z⟩ p * y,
           c * p.z + s * (cross ⟨x, y, z⟩ p).z + (1 - c) * Vector3.dot ⟨x, y, z⟩ p * z⟩ := by
    intro p
    simp only [Transform3D.rotate, Transform3D.combine, combine, Transform3D.ctor,
      Transform3D.ctor4, ctor, ctor4, transformPointV3, transformPoint3, cross, Vector3.dot,
      one_mul, zero_mul, mul_zero, mul_one, add_zero, zero_add, Vector3.mk.injEq, ← hc, ← hs]
    refine ⟨?_, ?_, ?_⟩ <;> ring
  refine ⟨hR, ?_, ?_⟩
  · rw [hR]
    simp only [cross, Vector3.dot, Vector3.mk.injEq]
    refine ⟨?_, ?_, ?_⟩
    · linear_combination (x * (1 - c)) * h
    · linear_combination (y * (1 - c)) * h
    · linear_combination (z * (1 - c)) * h
  · intro p hp
    rw [hR]
    simp only [cross, Vector3.dot, Vector3.mk.injEq] at hp ⊢
    refine ⟨⟨?_, ?_, ?_⟩, ?_, ?_, ?_⟩
    · linear_combination ((1 - c) * x) * hp
    · linear_combination ((1 - c) * y) * hp
    · linear_combination ((1 - c) * z) * hp
    · linear_combination (c + (1 - c) * (x * x + y * y + z * z)) * hp
    · ring
    · linear_combination (p.x * p.x + p.y * p.y + p.z * p.z) * h
        - (x * p.x + y * p.y + z * p.z) * hp

/-- Witness for C26 at the unit axis (3/5, 4/5, 0) with cos = 0 and sin = 1: the axis is mapped
to itself. -/
theorem Transform3D_rotate_about_axis_witness :
    (Transform3D.rotate quarterTurn Transform3D.ctor 90 ⟨3 / 5, 4 / 5, 0⟩).transformPointV3
      ⟨3 / 5, 4 / 5, 0⟩ = ⟨3 / 5, 4 / 5, 0⟩ :=
  (Transform3D_rotate_about_axis quarterTurn 90 0 1 ⟨3 / 5, 4 / 5, 0⟩ rfl rfl
    (by norm_num)).2.1

/-- C27: the 4-argument `T.orthographic(l,r,b,t)` is the 6-argument
`T.orthographic(l,r,b,t,-1,1)`. -/
theorem orthographic4_eq (T : TransformBase K) (l r b t : K) :
    Transform3D.orthographic4 T l r b t = Transform3D.orthographic T l r b t (-1) 1 :=
  rfl

/-- C28: for any function `tan`, `T.perspective(fov,aspect,znear,zfar)` is
`T.frustum(-fw, fw, -fh, fh, znear, zfar)` with `fh = tan(fov*pi/360)*znear` and
`fw = fh*aspect`, where `pi` is the constant 3.14159265358979 of the code. -/
theorem perspective_eq_frustum (M : CMath K) (T : TransformBase K)
    (fov aspect znear zfar pi fh fw : K)
    (hpi : pi = 314159265358979 / 100000000000000)
    (hfh : fh = M.tan (fov * pi / 360) * znear) (hfw : fw = fh * aspect) :
    Transform3D.perspective M T fov aspect znear zfar
      = Transform3D.frustum T (-fw) fw (-fh) fh znear zfar := by
  have e : fov * (314159265358979 / 100000000000000 / 360) = fov * pi / 360 := by
    rw [hpi, mul_div_assoc]
  simp only [Transform3D.perspective, e, ← hfh, ← hfw]

/-- Witness for C28 with tan = 1, fov 90, aspect 2, znear 1, zfar 3: `fh = 1`, `fw = 2`. -/
theorem perspective_eq_frustum_witness :
    Transform3D.perspective unitTan (Transform3D.ctor : TransformBase ℚ) 90 2 1 3
      = Transform3D.frustum Transform3D.ctor (-2) 2 (-1) 1 1 3 :=
  perspective_eq_frustum unitTan Transform3D.ctor 90 2 1 3
    (314159265358979 / 100000000000000) 1 2 rfl (by norm_num [unitTan]) (by norm_num)

/-- C29: `T.scale(f, c)` is `T.translate(-c).scale(f).translate(c)` and `T.rotate(angle, axis,
c)` is `T.translate(-c).rotate(angle, axis).translate(c)`; the stored matrix of each is the
product `T x Translate(-c) x Op x Translate(c)` of the four matrices. -/
theorem Transform3D_pivot_decomposition (M : CMath K) (T : TransformBase K) (f angle : K)
    (axis c : Vector3 K) :
    Transform3D.scaleAbout T f c
      = Transform3D.translate (Transform3D.scale (Transform3D.translate T (-c)) f) c ∧
    Transform3D.rotateAbout M T angle axis c
      = Transform3D.translate
          (Transform3D.rotate M (Transform3D.translate T (-c)) angle axis) c ∧
    (Transform3D.scaleAbout T f c).toMatrix
      = T.toMatrix * (Transform3D.translate Transform3D.ctor (-c)).toMatrix
          * (Transform3D.scale Transform3D.ctor f).toMatrix
          * (Transform3D.translate Transform3D.ctor c).toMatrix ∧
    (Transform3D.rotateAbout M T angle axis c).toMatrix
      = T.toMatrix * (Transform3D.translate Transform3D.ctor (-c)).toMatrix
          * (Transform3D.rotate M Transform3D.ctor angle axis).toMatrix
          * (Transform3D.translate Transform3D.ctor c).toMatrix := by
  have hI : ∀ b : TransformBase K, combine Transform3D.ctor b = b := by
    intro b
    cases b
    simp only [combine, ctor4, Transform3D.ctor, ctor, one_mul, zero_mul, add_zero, zero_add]
  have ht : ∀ (t : TransformBase K) (v : Vector3 K), (Transform3D.translate t v).toMatrix
      = t.toMatrix * (Transform3D.translate Transform3D.ctor v).toMatrix := by
    intro t v
    simp only [Transform3D.translate, Transform3D.combine, toMatrix_combine, hI]
  have hs : ∀ (t : TransformBase K), (Transform3D.scale t f).toMatrix
      = t.toMatrix * (Transform3D.scale Transform3D.ctor f).toMatrix := by
    intro t
    simp only [Transform3D.scale, Transform3D.combine, toMatrix_combine, hI]
  have hr : ∀ (t : TransformBase K), (Transform3D.rotate M t angle axis).toMatrix
      = t.toMatrix * (Transform3D.rotate M Transform3D.ctor angle axis).toMatrix := by
    intro t
    simp only [Transform3D.rotate, Transform3D.combine, toMatrix_combine, hI]
  refine ⟨rfl, rfl, ?_, ?_⟩
  · rw [Transform3D.scaleAbout, ht, hs, ht]
  · rw [Transform3D.rotateAbout, ht, hr, ht]

/-- C30: for all 2D vectors `a` and `b` over a commutative ring,
`cross((a.x,a.y,0), (b.x,b.y,0)) = (0, 0, det(a,b))`. -/
theorem det_eq_cross_z {T : Type} [CommRing T] (a b : Vector2 T) :
    cross ⟨a.x, a.y, 0⟩ ⟨b.x, b.y, 0⟩ = ⟨0, 0, det a b⟩ := by
  simp [cross, det]

/-- C31: evaluation of the code where the claim fails. For q = (1,2,3,4) the function
`conj(const Vector4<T>&)` yields no `Vector4`, in particular not (-1,-2,-3,4): its return
statement builds a `Vector2<T>` from four arguments. -/
theorem Vector4_conj_no_result :
    Vector4.conj (⟨1, 2, 3, 4⟩ : Vector4 ℚ) = none ∧
    Vector4.conj (⟨1, 2, 3, 4⟩ : Vector4 ℚ) ≠ some ⟨-1, -2, -3, 4⟩ := by
  constructor
  · rfl
  · simp [Vector4.conj]

/-- C32, counterexample: in `float` arithmetic let `a` be `Transform3D().scale(16777215)` and
`b` be `Transform3D().scale(4097)`, whose bottom row is [0,0,0,1], and `p` = (3,0,0). Then
`a.combine(b).transformPoint(p)` is (206208729088, 0, 0), the rounded product
16777215 * 4097 times 3, and `a.transformPoint(b.transformPoint(p))` is (206208745472, 0, 0),
the product 16777215 * 12291. -/
theorem combine_applies_argument_first_fails :
    (Transform3D.scale Transform3D.ctor (4097 : F32)).IsAffine ∧
    (Transform3D.combine (Transform3D.scale Transform3D.ctor (16777215 : F32))
        (Transform3D.scale Transform3D.ctor 4097)).transformPointV3 ⟨3, 0, 0⟩
      = ⟨206208729088, 0, 0⟩ ∧
    (Transform3D.scale Transform3D.ctor (16777215 : F32)).transformPointV3
        ((Transform3D.scale Transform3D.ctor (4097 : F32)).transformPointV3 ⟨3, 0, 0⟩)
      = ⟨206208745472, 0, 0⟩ ∧
    (Transform3D.combine (Transform3D.scale Transform3D.ctor (16777215 : F32))
        (Transform3D.scale Transform3D.ctor 4097)).transformPointV3 ⟨3, 0, 0⟩
      ≠ (Transform3D.scale Transform3D.ctor (16777215 : F32)).transformPointV3
        ((Transform3D.scale Transform3D.ctor (4097 : F32)).transformPointV3 ⟨3, 0, 0⟩) := by
  decide!

/-- C32, amended: in exact arithmetic (the values and every operation of the code taken in a
field `K`), for every transform `a` and every `b` whose bottom row is [0,0,0,1], the combined
transform applies the argument first and the receiver second:
`a.combine(b).transformPoint(p) = a.transformPoint(b.transformPoint(p))` for every 3D point;
and for every angle `Transform().translate(tx,ty).rotate(angle)` maps (0,0) to (tx,ty). -/
theorem combine_applies_argument_first (a b : TransformBase K) (hb : b.IsAffine) :
    (∀ p : Vector3 K,
      (combine a b).transformPointV3 p = a.transformPointV3 (b.transformPointV3 p)) ∧
    (∀ (M : CMath K) (tx ty angle : K),
      (Transform.rotate M (Transform.translate Transform.ctor tx ty) angle).transformPoint 0 0
        = ⟨tx, ty⟩) := by
  obtain ⟨h3, h7, h11, h15⟩ := hb
  constructor
  · intro p
    simp only [combine, ctor4, transformPointV3, transformPoint3, h3, h7, h11, h15,
      Vector3.mk.injEq]
    refine ⟨?_, ?_, ?_⟩ <;> ring
  · intro M tx ty angle
    simp only [Transform.rotate, Transform.translate, Transform.combine, Transform.ctor,
      Transform.ctor3, ctor, ctor3, transformPoint, one_mul, zero_mul, mul_zero, mul_one,
      add_zero, zero_add]

/-- Witness for C32 with a general 4x4 receiver and an affine argument. -/
theorem combine_applies_argument_first_witness :
    (combine (Transform3D.ctor4 (1 : ℚ) 2 3 4 5 6 7 8 9 10 11 12 13 14 15 16)
        (Transform3D.ctor4 0 (-1) 0 5 1 0 0 6 0 0 1 7 0 0 0 1)).transformPointV3 ⟨1, 2, 3⟩
      = (Transform3D.ctor4 (1 : ℚ) 2 3 4 5 6 7 8 9 10 11 12 13 14 15 16).transformPointV3
          ((Transform3D.ctor4 0 (-1) 0 5 1 0 0 6 0 0 1 7 0 0 0 1).transformPointV3 ⟨1, 2, 3⟩) :=
  (combine_applies_argument_first _ _ ⟨rfl, rfl, rfl, rfl⟩).1 ⟨1, 2, 3⟩

/-- C33, counterexample: in `float` arithmetic `Transform(-25,-214,139, 85,-147,214,
-204,215,212)` satisfies the 2D invariant and both functions compute the determinant
13499907, but index 10 of the result is the literal 1 in `Transform::getInverse` and the
quotient `b[10] / det` = 1.0000001 in `Transform3D::getInverse`: the sixteen values differ. -/
theorem getInverse_2D_eq_3D_fails :
    integer2D.Is2D ∧
    Transform.getInverseDet integer2D = 13499907 ∧
    Transform3D.getInverseDet integer2D = 13499907 ∧
    (Transform.getInverse integer2D).m10 = 1 ∧
    (Transform3D.getInverse integer2D).m10 = 1.0000001 ∧
    Transform.getInverse integer2D ≠ Transform3D.getInverse integer2D := by
  decide!

/-- C33, amended: in exact arithmetic (the values and every operation of the code taken in a
field `K`), on the 2D subspace the closed-form 2D inverse agrees with the general 4x4 inverse:
for `m` satisfying the 2D invariant the determinant of `Transform::getInverse` equals the one
of `Transform3D::getInverse`, the two functions return the same sixteen values, and both
return the identity when the determinant is zero. -/
theorem getInverse_2D_eq_3D [DecidableEq K] (m : TransformBase K) (h : m.Is2D) :
    Transform.getInverseDet m = Transform3D.getInverseDet m ∧
    Transform.getInverse m = Transform3D.getInverse m ∧
    (Transform.getInverseDet m = 0 →
      Transform.getInverse m = Identity ∧ Transform3D.getInverse m = Identity) := by
  obtain ⟨h2, h6, h8, h9, h11, h14, h10⟩ := h
  have hdet : Transform.getInverseDet m = Transform3D.getInverseDet m := by
    simp only [Transform.getInverseDet, Transform3D.getInverseDet, Transform3D.getInverseB,
      h2, h6, h8, h9, h11, h14, h10]
    ring
  have hzero : Transform.getInverseDet m = 0 →
      Transform.getInverse m = Identity ∧ Transform3D.getInverse m = Identity :=
    fun h0 => ⟨getInverse2D_of_eq m h0, getInverse3D_of_eq m (hdet ▸ h0)⟩
  refine ⟨hdet, ?_, hzero⟩
  by_cases h0 : Transform.getInverseDet m = 0
  · rw [(hzero h0).1, (hzero h0).2]
  · have h0' : Transform3D.getInverseDet m ≠ 0 := hdet ▸ h0
    rw [getInverse2D_of_ne m h0, getInverse3D_of_ne m h0', ← hdet]
    have hB10 : (Transform3D.getInverseB m).m10 = Transform.getInverseDet m := by
      simp only [Transform.getInverseDet, Transform3D.getInverseB, h2, h6, h8, h9, h11, h14,
        h10]
      ring
    simp only [divEntries, hB10, div_self h0, Transform.ctor3, ctor3, mk.injEq]
    simp only [Transform3D.getInverseB, h2, h6, h8, h9, h11, h14, h10]
    and_intros <;> first | trivial | ring

/-- Witness for C33 at `Transform(2,0,3, 0,1,0, 0,0,1)`. -/
theorem getInverse_2D_eq_3D_witness :
    Transform.getInverse (Transform.ctor3 (2 : ℚ) 0 3 0 1 0 0 0 1)
      = Transform3D.getInverse (Transform.ctor3 (2 : ℚ) 0 3 0 1 0 0 0 1) :=
  (getInverse_2D_eq_3D _ (is2D_ctor3 _ _ _ _ _ _ _ _ _)).2.1

/-- C34: inversion never divides by zero. With every division of `Transform::getInverse` and
`Transform3D::getInverse` guarded, each with the determinant as divisor and on the branch where
it is nonzero, the guarded functions return the value of the unguarded ones for every input
matrix and never the error. -/
theorem getInverseChecked_never_fails [DecidableEq K] (m : TransformBase K) :
    Transform.getInverseChecked m = some (Transform.getInverse m) ∧
    Transform3D.getInverseChecked m = some (Transform3D.getInverse m) ∧
    Transform.getInverseChecked m ≠ none ∧ Transform3D.getInverseChecked m ≠ none := by
  have h2 : Transform.getInverseChecked m = some (Transform.getInverse m) := by
    unfold Transform.getInverseChecked Transform.getInverse
    by_cases h : Transform.getInverseDet m = 0
    · simp [h]
    · simp [h, Transform.checkedDiv3, Transform.checkedDiv]
  have h3 : Transform3D.getInverseChecked m = some (Transform3D.getInverse m) := by
    unfold Transform3D.getInverseChecked Transform3D.getInverse
    by_cases h : Transform3D.getInverseDet m = 0
    · simp [h]
    · simp [h, Transform.checkedDiv4, Transform.checkedDiv]
  refine ⟨h2, h3, ?_, ?_⟩
  · rw [h2]; exact Option.some_ne_none _
  · rw [h3]; exact Option.some_ne_none _

/-- C35, counterexample: in `float` arithmetic, for the uniform scalings `a`, `b`, `c` by
16777215, 4097 and 3, index 0 of `a.combine(b).combine(c)` is 206208729088 and index 0 of
`a.combine(b.combine(c))` is 206208745472, under `TransformBase::combine` (3D scalings) and
under the 2D `Transform::combine` (2D scalings) alike. -/
theorem combine_assoc_fails :
    (combine (combine (Transform3D.scale Transform3D.ctor (16777215 : F32))
        (Transform3D.scale Transform3D.ctor 4097)) (Transform3D.scale Transform3D.ctor 3)).m0
      = 206208729088 ∧
    (combine (Transform3D.scale Transform3D.ctor (16777215 : F32))
        (combine (Transform3D.scale Transform3D.ctor 4097)
          (Transform3D.scale Transform3D.ctor 3))).m0
      = 206208745472 ∧
    combine (combine (Transform3D.scale Transform3D.ctor (16777215 : F32))
        (Transform3D.scale Transform3D.ctor 4097)) (Transform3D.scale Transform3D.ctor 3)
      ≠ combine (Transform3D.scale Transform3D.ctor (16777215 : F32))
        (combine (Transform3D.scale Transform3D.ctor 4097)
          (Transform3D.scale Transform3D.ctor 3)) ∧
    (Transform.combine (Transform.combine (Transform.scale Transform.ctor (16777215 : F32)
        16777215) (Transform.scale Transform.ctor 4097 4097))
        (Transform.scale Transform.ctor 3 3)).m0
      = 206208729088 ∧
    (Transform.combine (Transform.scale Transform.ctor (16777215 : F32) 16777215)
        (Transform.combine (Transform.scale Transform.ctor 4097 4097)
          (Transform.scale Transform.ctor 3 3))).m0
      = 206208745472 ∧
    Transform.combine (Transform.combine (Transform.scale Transform.ctor (16777215 : F32)
        16777215) (Transform.scale Transform.ctor 4097 4097))
        (Transform.scale Transform.ctor 3 3)
      ≠ Transform.combine (Transform.scale Transform.ctor (16777215 : F32) 16777215)
        (Transform.combine (Transform.scale Transform.ctor 4097 4097)
          (Transform.scale Transform.ctor 3 3)) := by
  decide!

/-- C35, amended: in exact arithmetic (the values and every operation of the code taken in a
field `K`), `combine` is associative: `a.combine(b).combine(c)` and `a.combine(b.combine(c))`
have the same matrix, for `TransformBase::combine` and for the 2D `Transform::combine`, for all
sixteen-value matrices. -/
theorem combine_assoc (a b c : TransformBase K) :
    combine (combine a b) c = combine a (combine b c) ∧
    Transform.combine (Transform.combine a b) c
      = Transform.combine a (Transform.combine b c) := by
  constructor
  · simp only [combine, ctor4, mk.injEq]
    and_intros <;> ring
  · simp only [Transform.combine, Transform.ctor3, ctor3, mk.injEq]
    and_intros <;> first | trivial | ring

/-- C37, counterexample: in `float` arithmetic, with the cosine -4.371139e-8 and the sine 1 of
90 degrees in both, index 10 of `Transform3D().rotate(90, (0,0,1))` is `zz * (1 - cos) + cos`
= 0.99999994 and index 10 of `Transform().rotate(90)` is the literal 1: the sixteen values
differ. -/
theorem rotate_z_eq_rotate_2D_fails :
    (Transform3D.rotate ninetyDegrees Transform3D.ctor 90 ⟨0, 0, 1⟩).m10 = 0.99999994 ∧
    (Transform.rotate ninetyDegrees Transform.ctor 90).m10 = 1 ∧
    Transform3D.rotate ninetyDegrees Transform3D.ctor 90 ⟨0, 0, 1⟩
      ≠ Transform.rotate ninetyDegrees Transform.ctor 90 := by
  decide!

/-- C37, amended: in exact arithmetic (the values and every operation of the code taken in a
field `K`), the 3D rotation about the z axis coincides with the 2D rotation:
`Transform3D().rotate(angle, (0,0,1))` and `Transform().rotate(angle)` have the same sixteen
values, for any `std::cos` and `std::sin`. -/
theorem rotate_z_eq_rotate_2D (M : CMath K) (angle : K) :
    Transform3D.rotate M Transform3D.ctor angle ⟨0, 0, 1⟩
      = Transform.rotate M Transform.ctor angle := by
  simp only [Transform3D.rotate, Transform3D.combine, combine, Transform3D.ctor,
    Transform3D.ctor4, ctor4, Transform.rotate, Transform.combine, Transform.ctor,
    Transform.ctor3, ctor3, ctor, mk.injEq, one_mul, zero_mul, mul_zero, mul_one, add_zero,
    zero_add, sub_zero, neg_zero, zero_sub, true_and, and_true, and_self]
  ring

/-- C38: `lookAt` depends on eye and target only through their difference: for every receiver,
every eye, target, up and displacement `d`, and any `normalize`,
`T.lookAt(eye + d, target + d, up)` has the same matrix as `T.lookAt(eye, target, up)`. -/
theorem lookAt_translation_invariant (normalize : Vector3 K → Vector3 K) (T : TransformBase K)
    (eye target up d : Vector3 K) :
    Transform3D.lookAt normalize T (eye + d) (target + d) up
      = Transform3D.lookAt normalize T eye target up := by
  have h : eye + d - (target + d) = eye - target := by
    ext
    · show eye.x + d.x - (target.x + d.x) = eye.x - target.x
      ring
    · show eye.y + d.y - (target.y + d.y) = eye.y - target.y
      ring
    · show eye.z + d.z - (target.z + d.z) = eye.z - target.z
      ring
  simp only [Transform3D.lookAt, h]

/-- C39: the inverse of a translation is the opposite translation:
`Transform3D().translate(v).getInverse()` is `Transform3D().translate(-v)` and
`Transform().translate(x,y).getInverse()` is `Transform().translate(-x,-y)`. -/
theorem translate_getInverse [DecidableEq K] :
    (∀ v : Vector3 K,
      Transform3D.getInverse (Transform3D.translate Transform3D.ctor v)
        = Transform3D.translate Transform3D.ctor (-v)) ∧
    (∀ x y : K,
      Transform.getInverse (Transform.translate Transform.ctor x y)
        = Transform.translate Transform.ctor (-x) (-y)) := by
  constructor
  · intro v
    have hv : (-v) = ⟨-v.x, -v.y, -v.z⟩ := rfl
    have hm : Transform3D.translate Transform3D.ctor v
        = Transform3D.ctor4 1 0 0 v.x 0 1 0 v.y 0 0 1 v.z 0 0 0 1 := by
      simp only [Transform3D.translate, Transform3D.combine, combine, Transform3D.ctor,
        Transform3D.ctor4, ctor, ctor4, one_mul, zero_mul, mul_zero, mul_one, add_zero,
        zero_add]
    have hm' : Transform3D.translate Transform3D.ctor (-v)
        = Transform3D.ctor4 1 0 0 (-v.x) 0 1 0 (-v.y) 0 0 1 (-v.z) 0 0 0 1 := by
      simp only [Transform3D.translate, Transform3D.combine, combine, Transform3D.ctor,
        Transform3D.ctor4, ctor, ctor4, one_mul, zero_mul, mul_zero, mul_one, add_zero,
        zero_add, hv]
    have hd : Transform3D.getInverseDet
        (Transform3D.ctor4 1 0 0 v.x 0 1 0 v.y 0 0 1 v.z 0 0 0 1) = 1 := by
      simp only [Transform3D.getInverseDet, Transform3D.getInverseB, Transform3D.ctor4, ctor4]
      ring
    rw [hm, hm', getInverse3D_of_ne _ (by rw [hd]; exact one_ne_zero), hd]
    simp only [divEntries, Transform3D.getInverseB, Transform3D.ctor4, ctor4, mk.injEq, div_one]
    and_intros <;> ring
  · intro x y
    have hm : Transform.translate Transform.ctor x y
        = Transform.ctor3 1 0 x 0 1 y 0 0 1 := by
      simp only [Transform.translate, Transform.combine, Transform.ctor, Transform.ctor3, ctor,
        ctor3, one_mul, zero_mul, mul_zero, mul_one, add_zero, zero_add]
    have hm' : Transform.translate Transform.ctor (-x) (-y)
        = Transform.ctor3 1 0 (-x) 0 1 (-y) 0 0 1 := by
      simp only [Transform.translate, Transform.combine, Transform.ctor, Transform.ctor3, ctor,
        ctor3, one_mul, zero_mul, mul_zero, mul_one, add_zero, zero_add]
    have hd : Transform.getInverseDet (Transform.ctor3 1 0 x 0 1 y 0 0 1) = 1 := by
      simp only [Transform.getInverseDet, Transform.ctor3, ctor3]
      ring
    rw [hm, hm', getInverse2D_of_ne _ (by rw [hd]; exact one_ne_zero), hd]
    simp only [Transform.ctor3, ctor3, mk.injEq, div_one]
    and_intros <;> first | trivial | ring

/-- C40: over a commutative ring `qmul` is associative, (0,0,0,1) is a two-sided identity, the
norm is multiplicative, `dot(qmul(a,b), qmul(a,b)) = dot(a,a) * dot(b,b)`, and `qmul` is the
Hamilton product of the quaternions with scalar part `w` and vector part `(x,y,z)`. -/
theorem qmul_hamilton {T : Type} [CommRing T] (a b c : Vector4 T) :
    qmul (qmul a b) c = qmul a (qmul b c) ∧
    qmul a ⟨0, 0, 0, 1⟩ = a ∧ qmul ⟨0, 0, 0, 1⟩ a = a ∧
    (qmul a b).dot (qmul a b) = a.dot a * b.dot b ∧
    (qmul a b).toQuaternion = a.toQuaternion * b.toQuaternion := by
  refine ⟨?_, ?_, ?_, ?_, ?_⟩
  · simp only [qmul, Vector4.mk.injEq]
    and_intros <;> ring
  · cases a
    simp only [qmul, Vector4.mk.injEq]
    and_intros <;> ring
  · cases a
    simp only [qmul, Vector4.mk.injEq]
    and_intros <;> ring
  · simp only [qmul, Vector4.dot]
    ring
  · ext <;> simp [qmul, Vector4.toQuaternion] <;> ring

end Claims

end sf
